import Mathlib

/-! IoTivity sample resources: binary switch and observable light.

A shallow embedding of

* `service/smarthome-api/server/resource/src/BinarySwitchResource.cpp`
  (`BinarySwitchResource`: constructor, `getState`, `setState`, `onSet`), and
* `examples/simpleserver.cpp`
  (`LightResource`, `entityHandler`, one pass of `ChangeLightRepresentation`),

followed by the properties established about them.  Console output is left out.
-/

namespace OIC.Service.SH

/-! ## Property bundle -/

/-- Modelled from the spec: the value variant held by a `PropertyBundle`
(`PropertyBundle.h` is not among the sources): "variant of bool/int/float/string".
A floating-point value is kept as a rational. -/
inductive PropertyValue where
  | bool (b : Bool)
  | int (i : Int)
  | double (q : Rat)
  | string (s : String)
  deriving DecidableEq, Repr

/-- Modelled from the spec: `PropertyBundle` (`PropertyBundle.h` is not among the
sources), a "mapping from property key (string) to value", kept as an association
list in which a key occurs at most once when built with `setValue`. -/
abbrev PropertyBundle := List (String × PropertyValue)

namespace PropertyBundle

/-- Modelled from the spec: `PropertyBundle::contains(key)`, whether the mapping
has an entry for `key`. -/
def contains : PropertyBundle → String → Bool
  | [], _ => false
  | (k, _) :: rest, key => if k = key then true else contains rest key

/-- Modelled from the spec: the entry the mapping holds for `key`, if any. -/
def find : PropertyBundle → String → Option PropertyValue
  | [], _ => none
  | (k, v) :: rest, key => if k = key then some v else find rest key

/-- Modelled from the spec: `PropertyBundle::setValue(key, val)`, which maps `key`
to `val`, replacing the entry of `key` when there is one. -/
def setValue : PropertyBundle → String → PropertyValue → PropertyBundle
  | [], key, val => [(key, val)]
  | (k, v) :: rest, key, val =>
      if k = key then (k, val) :: rest else (k, v) :: setValue rest key val

/-- Modelled from the spec: `PropertyBundle::getValue(key, bool&)`.  The result is
`some b` when `key` is mapped to the boolean `b`; otherwise the call reports failure
and the caller's variable is left as it was. -/
def getValueBool (bundle : PropertyBundle) (key : String) : Option Bool :=
  match find bundle key with
  | some (PropertyValue.bool b) => some b
  | _ => none

end PropertyBundle

/-! ## Binary switch resource -/

/-- Modelled from the spec: `ResultCode` (`CommonApi.h` is not among the sources),
the tri-state handler result `SUCCESS` / `FAIL` / `KEEP` ("Accepted, Rejected,
Unchanged").  `OTHER` stands for an integer outside the three enumerators, which
the `default:` branch of a `switch` receives. -/
inductive ResultCode where
  | SUCCESS
  | FAIL
  | KEEP
  | OTHER (code : Nat)
  deriving DecidableEq, Repr

/-- The application's delegate (`BinarySwitchResourceDelegate`): two callbacks,
each of which runs application code on the application's state `σ` and hands back
a `ResultCode`. -/
structure BinarySwitchResourceDelegate (σ : Type) where
  turnOnCallback : σ → ResultCode × σ
  turnOffCallback : σ → ResultCode × σ

/-- Constant `URI_BINARYSWITCH`. -/
def URI_BINARYSWITCH : String := "/binaryswitch"

/-- Constant `KEY_VALUE`. -/
def KEY_VALUE : String := "value"

/-- Modelled from the spec: `RESOURCE_TYPE::BINARYSWITCH` (its header is not among
the sources); the test helper names the binary switch type `oic.r.switch.binary`. -/
def RESOURCE_TYPE.BINARYSWITCH : String := "oic.r.switch.binary"

/-- State of a `BinarySwitchResource`: `m_userDelegate` (`none` for `NULL`) and the
fields its base class `SHBaseResource` keeps behind `setTypes`,
`setPropertyBundle` / `getPropertyBundle` and `setDelegate`. -/
structure BinarySwitchResource (σ : Type) where
  m_userDelegate : Option (BinarySwitchResourceDelegate σ)
  m_resourceUri : String
  m_resourceTypes : List String
  m_propertyBundle : PropertyBundle
  /-- whether `setDelegate(this)` has been called -/
  m_delegateSet : Bool

namespace BinarySwitchResource

variable {σ : Type}

/-- Modelled from the spec: `SHBaseResource::getPropertyBundle()`. -/
def getPropertyBundle (r : BinarySwitchResource σ) : PropertyBundle :=
  r.m_propertyBundle

/-- Modelled from the spec: `SHBaseResource::setPropertyBundle(bundle)`. -/
def setPropertyBundle (r : BinarySwitchResource σ) (bundle : PropertyBundle) :
    BinarySwitchResource σ :=
  { r with m_propertyBundle := bundle }

/-- Modelled from the spec: `SHBaseResource::setTypes(types)`. -/
def setTypes (r : BinarySwitchResource σ) (types : List String) : BinarySwitchResource σ :=
  { r with m_resourceTypes := types }

/-- The constructor `BinarySwitchResource::BinarySwitchResource()`. -/
def new : BinarySwitchResource σ :=
  let r : BinarySwitchResource σ :=
    { m_userDelegate := none
      m_resourceUri := URI_BINARYSWITCH
      m_resourceTypes := []
      m_propertyBundle := []
      m_delegateSet := false }
  let types : List String := [] ++ [RESOURCE_TYPE.BINARYSWITCH]
  let r := r.setTypes types
  let state : Bool := false
  let bundle : PropertyBundle := []
  let bundle := bundle.setValue KEY_VALUE (PropertyValue.bool state)
  r.setPropertyBundle bundle

/-- The method `BinarySwitchResource::getState()`. -/
def getState (r : BinarySwitchResource σ) : Bool :=
  let state : Bool := false
  match r.getPropertyBundle.getValueBool KEY_VALUE with
  | some b => b
  | none => state

/-- The method `BinarySwitchResource::setState(state)`. -/
def setState (r : BinarySwitchResource σ) (state : Bool) : BinarySwitchResource σ :=
  let bundle : PropertyBundle := []
  let bundle := bundle.setValue KEY_VALUE (PropertyValue.bool state)
  r.setPropertyBundle bundle

/-- The method `BinarySwitchResource::setBinarySwitchResourceDelegate(switchDelegate)`. -/
def setBinarySwitchResourceDelegate (r : BinarySwitchResource σ)
    (switchDelegate : Option (BinarySwitchResourceDelegate σ)) : BinarySwitchResource σ :=
  { r with m_userDelegate := switchDelegate, m_delegateSet := true }

/-- The method `BinarySwitchResource::onGet`. -/
def onGet (_r : BinarySwitchResource σ) : ResultCode :=
  ResultCode.SUCCESS

/-- The method `BinarySwitchResource::onSet(requestId, bundle, query)`, run with the
application in state `app`.  The result is the returned code, the resource after
the call and the application's state after the call.  `requestId` and `query` are
not read by the body. -/
def onSet (r : BinarySwitchResource σ) (app : σ) (bundle : PropertyBundle) :
    ResultCode × BinarySwitchResource σ × σ :=
  match r.m_userDelegate with
  | none => (ResultCode.FAIL, r, app)
  | some delegate =>
    if bundle.contains KEY_VALUE then
      let storedBundle := r.getPropertyBundle
      let value : Bool :=
        match bundle.getValueBool KEY_VALUE with
        | some b => b
        | none => false
      -- Call application callback.
      let called : ResultCode × σ :=
        if value then delegate.turnOnCallback app else delegate.turnOffCallback app
      let retCode := called.1
      let app := called.2
      match retCode with
      | ResultCode.SUCCESS =>
          -- Update property with the requested value.
          let storedBundle := storedBundle.setValue KEY_VALUE (PropertyValue.bool value)
          (ResultCode.SUCCESS, r.setPropertyBundle storedBundle, app)
      | ResultCode.FAIL => (ResultCode.FAIL, r, app)
      | ResultCode.KEEP => (ResultCode.KEEP, r, app)
      | _ => (ResultCode.KEEP, r, app)
    else
      -- "value" is mandatory property.
      (ResultCode.FAIL, r, app)

end BinarySwitchResource

end OIC.Service.SH

/-! ## The light server of `simpleserver.cpp` -/

namespace OC

/-- Constants of `OCApi.h` that `simpleserver.cpp` reads but that are declared
outside the sources at hand: the three bit masks of `RequestHandlerFlag` and the
string `DEFAULT_INTERFACE`.  They are a parameter of the embedding. -/
structure OCApi where
  InitFlag : Nat
  RequestFlag : Nat
  ObserverFlag : Nat
  DEFAULT_INTERFACE : String

/-- Modelled from the spec: `ObserveAction` (declared in `OCApi.h`, not among the
sources), the two kinds of OBSERVE request, "OBSERVE-register" and
"OBSERVE-unregister". -/
inductive ObserveAction where
  | ObserveRegister
  | ObserveUnregister
  deriving DecidableEq, Repr

/-- Modelled from the spec: `OCStackResult` (declared in `ocstack.h`, not among the
sources), the delivery "status including an explicit no observers signal".  The
two enumerators the source names are kept; every other status is `OC_STACK_OTHER`. -/
inductive OCStackResult where
  | OC_STACK_OK
  | OC_STACK_NO_OBSERVERS
  | OC_STACK_OTHER (code : Nat)
  deriving DecidableEq, Repr

/-- Observer identifier (`OCObservationId`), an opaque integer. -/
abbrev OCObservationId := Nat

/-- The type `ObservationIds`, a `std::vector` of observer identifiers. -/
abbrev ObservationIds := List OCObservationId

/-- Modelled from the spec: `ObservationInfo` (declared in `OCApi.h`), what
`getObservationInfo()` returns: the action and the observer id of the request. -/
structure ObservationInfo where
  action : ObserveAction
  obsId : OCObservationId
  deriving DecidableEq, Repr

/-- Modelled from the spec: a value held by an `OCRepresentation`. -/
inductive AttributeValue where
  | bool (b : Bool)
  | int (i : Int)
  | string (s : String)
  deriving DecidableEq, Repr

/-- Modelled from the spec: `OCRepresentation` (declared in `OCApi.h`), a URI and a
"mapping from property key (string) to value". -/
structure OCRepresentation where
  m_uri : String
  m_values : List (String × AttributeValue)
  deriving DecidableEq, Repr

namespace OCRepresentation

/-- A default-constructed representation. -/
def empty : OCRepresentation := { m_uri := "", m_values := [] }

/-- Modelled from the spec: `OCRepresentation::setUri`. -/
def setUri (rep : OCRepresentation) (uri : String) : OCRepresentation :=
  { rep with m_uri := uri }

/-- Replace-or-add on the list of entries. -/
def setEntry : List (String × AttributeValue) → String → AttributeValue →
    List (String × AttributeValue)
  | [], key, val => [(key, val)]
  | (k, v) :: rest, key, val =>
      if k = key then (k, val) :: rest else (k, v) :: setEntry rest key val

/-- The entry held for `key`, if any. -/
def findEntry : List (String × AttributeValue) → String → Option AttributeValue
  | [], _ => none
  | (k, v) :: rest, key => if k = key then some v else findEntry rest key

/-- Modelled from the spec: `OCRepresentation::setValue(key, val)`, which maps
`key` to `val`, replacing the entry of `key` when there is one. -/
def setValue (rep : OCRepresentation) (key : String) (val : AttributeValue) :
    OCRepresentation :=
  { rep with m_values := setEntry rep.m_values key val }

/-- Modelled from the spec: `OCRepresentation::getValue(key, bool&)`: `some b` when
`key` is mapped to the boolean `b`; otherwise the call returns `false` and leaves
the caller's variable as it was. -/
def getValueBool (rep : OCRepresentation) (key : String) : Option Bool :=
  match findEntry rep.m_values key with
  | some (AttributeValue.bool b) => some b
  | _ => none

/-- Modelled from the spec: `OCRepresentation::getValue(key, int&)`: `some i` when
`key` is mapped to the integer `i`; otherwise the call returns `false` and leaves
the caller's variable as it was. -/
def getValueInt (rep : OCRepresentation) (key : String) : Option Int :=
  match findEntry rep.m_values key with
  | some (AttributeValue.int i) => some i
  | _ => none

end OCRepresentation

/-- Modelled from the spec: `OCResourceRequest` (declared in `OCResourceRequest.h`),
read through `getRequestType`, `getRequestHandlerFlag`, `getResourceRepresentation`
and `getObservationInfo`. -/
structure OCResourceRequest where
  requestType : String
  requestHandlerFlag : Nat
  resourceRepresentation : OCRepresentation
  observationInfo : ObservationInfo
  deriving DecidableEq, Repr

/-- Modelled from the spec: `OCResourceResponse` (declared in
`OCResourceResponse.h`), written through `setErrorCode` and
`setResourceRepresentation`. -/
structure OCResourceResponse where
  m_errorCode : Int
  m_representation : Option OCRepresentation
  m_interface : Option String
  deriving DecidableEq, Repr

namespace OCResourceResponse

/-- A default-constructed response (`new OCResourceResponse()`). -/
def new : OCResourceResponse :=
  { m_errorCode := 0, m_representation := none, m_interface := none }

/-- Modelled from the spec: `OCResourceResponse::setErrorCode`. -/
def setErrorCode (r : OCResourceResponse) (eCode : Int) : OCResourceResponse :=
  { r with m_errorCode := eCode }

/-- Modelled from the spec: `OCResourceResponse::setResourceRepresentation(rep)`. -/
def setResourceRepresentation (r : OCResourceResponse) (rep : OCRepresentation) :
    OCResourceResponse :=
  { r with m_representation := some rep }

/-- Modelled from the spec:
`OCResourceResponse::setResourceRepresentation(rep, interface)`. -/
def setResourceRepresentationWith (r : OCResourceResponse) (rep : OCRepresentation)
    (interface : String) : OCResourceResponse :=
  { r with m_representation := some rep, m_interface := some interface }

end OCResourceResponse

/-- A call into the stack made by the notifier. -/
inductive NotifyCall where
  | notifyListOfObservers (handle : Nat) (observationIds : ObservationIds)
      (response : OCResourceResponse)
  | notifyAllObservers (handle : Nat)
  deriving DecidableEq, Repr

/-- The external stack seen from the notifier: the status it answers to a call of
`OCPlatform::notifyListOfObservers` or `OCPlatform::notifyAllObservers`. -/
abbrev OCPlatform := NotifyCall → OCStackResult

/-- Value of a C++ `int` after an arithmetic result `x`, in two's complement on
32 bits. -/
def wrapInt32 (x : Int) : Int :=
  (x + 2 ^ 31) % 2 ^ 32 - 2 ^ 31

/-- The class `LightResource`. -/
structure LightResource where
  m_name : String
  m_state : Bool
  m_power : Int
  m_lightUri : String
  m_resourceHandle : Nat
  m_lightRep : OCRepresentation
  m_interestedObservers : ObservationIds
  deriving DecidableEq, Repr

namespace LightResource

/-- The constructor `LightResource::LightResource()`.  The handle of the global
object `myLight` is zero until `createResource` registers the resource. -/
def new : LightResource :=
  let m_name := "John's light"
  let m_state := false
  let m_power : Int := 0
  let m_lightUri := "/a/light"
  -- Initialize representation
  let m_lightRep := OCRepresentation.empty.setUri m_lightUri
  let m_lightRep := m_lightRep.setValue "state" (AttributeValue.bool m_state)
  let m_lightRep := m_lightRep.setValue "power" (AttributeValue.int m_power)
  let m_lightRep := m_lightRep.setValue "name" (AttributeValue.string m_name)
  { m_name := m_name
    m_state := m_state
    m_power := m_power
    m_lightUri := m_lightUri
    m_resourceHandle := 0
    m_lightRep := m_lightRep
    m_interestedObservers := [] }

/-- The method `LightResource::getHandle()`. -/
def getHandle (l : LightResource) : Nat :=
  l.m_resourceHandle

/-- The method `LightResource::put(rep)`. -/
def put (l : LightResource) (rep : OCRepresentation) : LightResource :=
  let l : LightResource :=
    match rep.getValueBool "state" with
    | some b => { l with m_state := b }
    | none => l
  let l : LightResource :=
    match rep.getValueInt "power" with
    | some p => { l with m_power := p }
    | none => l
  l

/-- The method `LightResource::get()`: the returned representation and the object
after the call (the call refreshes `m_lightRep`). -/
def get (l : LightResource) : OCRepresentation × LightResource :=
  let m_lightRep := l.m_lightRep.setValue "state" (AttributeValue.bool l.m_state)
  let m_lightRep := m_lightRep.setValue "power" (AttributeValue.int l.m_power)
  (m_lightRep, { l with m_lightRep := m_lightRep })

end LightResource

/-- The mutable globals of `simpleserver.cpp`: `gObservation`, `isListOfObservers`,
`myLight`, and the function-local static `startedThread` of `entityHandler`. -/
structure ServerState where
  gObservation : Int
  isListOfObservers : Int
  myLight : LightResource
  startedThread : Int
  deriving DecidableEq, Repr

/-- The globals at program start, after `main` has set `isListOfObservers`. -/
def ServerState.init (isListOfObservers : Int) : ServerState :=
  { gObservation := 0
    isListOfObservers := isListOfObservers
    myLight := LightResource.new
    startedThread := 0 }

/-- One pass of the body of `while (1)` in `ChangeLightRepresentation` (after the
`sleep`): the globals after the pass and the calls made into the stack, in order. -/
def ChangeLightRepresentation (K : OCApi) (platform : OCPlatform) (s : ServerState) :
    ServerState × List NotifyCall :=
  if s.gObservation ≠ 0 then
    let myLight := { s.myLight with m_power := wrapInt32 (s.myLight.m_power + 10) }
    if s.isListOfObservers ≠ 0 then
      let resourceResponse := OCResourceResponse.new
      let resourceResponse := resourceResponse.setErrorCode 200
      let got := myLight.get
      let myLight := got.2
      let resourceResponse :=
        resourceResponse.setResourceRepresentationWith got.1 K.DEFAULT_INTERFACE
      let call := NotifyCall.notifyListOfObservers myLight.getHandle
        myLight.m_interestedObservers resourceResponse
      let result := platform call
      if OCStackResult.OC_STACK_NO_OBSERVERS = result then
        ({ s with myLight := myLight, gObservation := 0 }, [call])
      else
        ({ s with myLight := myLight }, [call])
    else
      let call := NotifyCall.notifyAllObservers myLight.getHandle
      let result := platform call
      if OCStackResult.OC_STACK_NO_OBSERVERS = result then
        ({ s with myLight := myLight, gObservation := 0 }, [call])
      else
        ({ s with myLight := myLight }, [call])
  else
    (s, [])

/-- What a call of `entityHandler` leaves behind: the globals, the response object
and the number of threads it created with `pthread_create`. -/
structure HandlerOutcome where
  state : ServerState
  response : Option OCResourceResponse
  threadsCreated : Nat
  deriving DecidableEq, Repr

/-- The function `entityHandler(request, response)`; a null `shared_ptr` is `none`. -/
def entityHandler (K : OCApi) (s : ServerState) (request : Option OCResourceRequest)
    (response : Option OCResourceResponse) : HandlerOutcome :=
  match request with
  | some request =>
    -- Get the request type and request flag
    let requestType := request.requestType
    let requestFlag := request.requestHandlerFlag
    -- `InitFlag`: nothing but console output
    let afterRequest : ServerState × Option OCResourceResponse :=
      if requestFlag &&& K.RequestFlag ≠ 0 then
        if requestType = "GET" then
          match response with
          | some response =>
              let response := response.setErrorCode 200
              let got := s.myLight.get
              ({ s with myLight := got.2 }, some (response.setResourceRepresentation got.1))
          | none => (s, none)
        else if requestType = "PUT" then
          let rep := request.resourceRepresentation
          -- Update the lightResource
          let myLight := s.myLight.put rep
          match response with
          | some response =>
              let response := response.setErrorCode 200
              let got := myLight.get
              ({ s with myLight := got.2 }, some (response.setResourceRepresentation got.1))
          | none => ({ s with myLight := myLight }, none)
        else if requestType = "POST" then
          (s, response)
        else if requestType = "DELETE" then
          (s, response)
        else
          (s, response)
      else
        (s, response)
    let s := afterRequest.1
    let response := afterRequest.2
    if requestFlag &&& K.ObserverFlag ≠ 0 then
      let observationInfo := request.observationInfo
      let m_interestedObservers : ObservationIds :=
        if ObserveAction.ObserveRegister = observationInfo.action then
          s.myLight.m_interestedObservers ++ [observationInfo.obsId]
        else if ObserveAction.ObserveUnregister = observationInfo.action then
          s.myLight.m_interestedObservers.filter (fun id => id ≠ observationInfo.obsId)
        else
          s.myLight.m_interestedObservers
      let s := { s with myLight := { s.myLight with m_interestedObservers := m_interestedObservers } }
      let s := { s with gObservation := 1 }
      -- If we have not created the thread already, we will create one here.
      if s.startedThread = 0 then
        { state := { s with startedThread := 1 }, response := response, threadsCreated := 1 }
      else
        { state := s, response := response, threadsCreated := 0 }
    else
      { state := s, response := response, threadsCreated := 0 }
  | none =>
    { state := s, response := response, threadsCreated := 0 }

/-- The block of `entityHandler` guarded by `requestFlag & RequestHandlerFlag::RequestFlag`,
on its own: the globals and the response object it leaves. -/
def entityHandler.requestBlock (K : OCApi) (s : ServerState) (request : OCResourceRequest)
    (response : Option OCResourceResponse) : ServerState × Option OCResourceResponse :=
  if request.requestHandlerFlag &&& K.RequestFlag ≠ 0 then
    if request.requestType = "GET" then
      match response with
      | some response =>
          let response := response.setErrorCode 200
          let got := s.myLight.get
          ({ s with myLight := got.2 }, some (response.setResourceRepresentation got.1))
      | none => (s, none)
    else if request.requestType = "PUT" then
      let rep := request.resourceRepresentation
      let myLight := s.myLight.put rep
      match response with
      | some response =>
          let response := response.setErrorCode 200
          let got := myLight.get
          ({ s with myLight := got.2 }, some (response.setResourceRepresentation got.1))
      | none => ({ s with myLight := myLight }, none)
    else if request.requestType = "POST" then
      (s, response)
    else if request.requestType = "DELETE" then
      (s, response)
    else
      (s, response)
  else
    (s, response)

/-- The block of `entityHandler` guarded by `requestFlag & RequestHandlerFlag::ObserverFlag`,
on its own: the globals it leaves and the number of threads it creates. -/
def entityHandler.observerBlock (K : OCApi) (s : ServerState) (request : OCResourceRequest) :
    ServerState × Nat :=
  if request.requestHandlerFlag &&& K.ObserverFlag ≠ 0 then
    let observationInfo := request.observationInfo
    let m_interestedObservers : ObservationIds :=
      if ObserveAction.ObserveRegister = observationInfo.action then
        s.myLight.m_interestedObservers ++ [observationInfo.obsId]
      else if ObserveAction.ObserveUnregister = observationInfo.action then
        s.myLight.m_interestedObservers.filter (fun id => id ≠ observationInfo.obsId)
      else
        s.myLight.m_interestedObservers
    let s := { s with myLight := { s.myLight with m_interestedObservers := m_interestedObservers } }
    let s := { s with gObservation := 1 }
    if s.startedThread = 0 then
      ({ s with startedThread := 1 }, 1)
    else
      (s, 0)
  else
    (s, 0)

end OC

/-! ## Call sequences -/

namespace OIC.Service.SH

variable {σ : Type}

/-- The boolean a bundle requests for the switch: the boolean it holds under
`"value"`, and `false` when it holds none there. -/
def requestedValue (bundle : PropertyBundle) : Bool :=
  match bundle.getValueBool KEY_VALUE with
  | some b => b
  | none => false

/-- The callback of the delegate that serves a request for `value`
(`turnOnCallback` for `true`, `turnOffCallback` for `false`), run on the
application state `app`. -/
def invokedCallback (delegate : BinarySwitchResourceDelegate σ) (value : Bool) (app : σ) :
    ResultCode × σ :=
  if value then delegate.turnOnCallback app else delegate.turnOffCallback app

/-- A sequence of `onSet` calls, one per bundle, each starting from the resource
and the application state the previous call left. -/
def onSetAll (r : BinarySwitchResource σ) (app : σ) :
    List PropertyBundle → BinarySwitchResource σ × σ
  | [] => (r, app)
  | bundle :: rest =>
      let out := r.onSet app bundle
      onSetAll out.2.1 out.2.2 rest

/-- What the delegate answered along a sequence of requests that all carry
`"value"`: per request, the requested value and the code returned by the callback
serving it. -/
def callbackTrace (delegate : BinarySwitchResourceDelegate σ) (app : σ) :
    List PropertyBundle → List (Bool × ResultCode)
  | [] => []
  | bundle :: rest =>
      let called := invokedCallback delegate (requestedValue bundle) app
      (requestedValue bundle, called.1) :: callbackTrace delegate called.2 rest

/-- The requested value of the last entry of a trace whose callback returned
`SUCCESS`, if there is one. -/
def lastAccepted (trace : List (Bool × ResultCode)) : Option Bool :=
  ((trace.filter (fun c => decide (c.2 = ResultCode.SUCCESS))).getLast?).map Prod.fst

/-- A delegate that accepts every request and counts its calls. -/
def acceptAll : BinarySwitchResourceDelegate Nat :=
  { turnOnCallback := fun n => (ResultCode.SUCCESS, n + 1)
    turnOffCallback := fun n => (ResultCode.SUCCESS, n + 1) }

/-- A delegate that rejects every request and counts its calls. -/
def rejectAll : BinarySwitchResourceDelegate Nat :=
  { turnOnCallback := fun n => (ResultCode.FAIL, n + 1)
    turnOffCallback := fun n => (ResultCode.FAIL, n + 1) }

/-- A delegate that answers `KEEP` to every request and counts its calls. -/
def keepAll : BinarySwitchResourceDelegate Nat :=
  { turnOnCallback := fun n => (ResultCode.KEEP, n + 1)
    turnOffCallback := fun n => (ResultCode.KEEP, n + 1) }

/-- A delegate that accepts the first request it sees and rejects the later ones. -/
def acceptFirst : BinarySwitchResourceDelegate Nat :=
  { turnOnCallback := fun n => (if n = 0 then ResultCode.SUCCESS else ResultCode.FAIL, n + 1)
    turnOffCallback := fun n => (if n = 0 then ResultCode.SUCCESS else ResultCode.FAIL, n + 1) }

end OIC.Service.SH

namespace OC

/-- The values `OCApi.h` gives the constants, used to evaluate examples. -/
def sampleApi : OCApi :=
  { InitFlag := 1, RequestFlag := 2, ObserverFlag := 4, DEFAULT_INTERFACE := "oc.mi.def" }

/-- A sequence of requests handled one after the other by `entityHandler`, each with
its own response object. -/
def handleAll (K : OCApi) (s : ServerState) :
    List (OCResourceRequest × Option OCResourceResponse) → ServerState
  | [] => s
  | q :: rest => handleAll K (entityHandler K s (some q.1) q.2).state rest

/-- One event of the server's life: a request delivered to `entityHandler`, or one
pass of the notifier with the stack answering as `platform`. -/
inductive Step where
  | request (request : Option OCResourceRequest) (response : Option OCResourceResponse)
  | cycle (platform : OCPlatform)

/-- The globals after a sequence of events. -/
def run (K : OCApi) (s : ServerState) : List Step → ServerState
  | [] => s
  | Step.request request response :: rest => run K (entityHandler K s request response).state rest
  | Step.cycle platform :: rest => run K (ChangeLightRepresentation K platform s).1 rest

/-- Whether a later OBSERVE request in `rest` unregisters `id`. -/
def unregisteredLater (id : OCObservationId) (rest : List ObservationInfo) : Bool :=
  rest.any (fun o => decide (o.action = ObserveAction.ObserveUnregister ∧ o.obsId = id))

/-- The ids registered along a sequence of OBSERVE requests and not unregistered
later in it, one per such registration, in the order of registration. -/
def registeredAndKept : List ObservationInfo → ObservationIds
  | [] => []
  | o :: rest =>
      if o.action = ObserveAction.ObserveRegister ∧ unregisteredLater o.obsId rest = false then
        o.obsId :: registeredAndKept rest
      else
        registeredAndKept rest

/-- An OBSERVE request without a payload: only the observer flag is set. -/
def observeRequest (K : OCApi) (action : ObserveAction) (obsId : OCObservationId) :
    OCResourceRequest :=
  { requestType := "GET"
    requestHandlerFlag := K.ObserverFlag
    resourceRepresentation := OCRepresentation.empty
    observationInfo := { action := action, obsId := obsId } }

/-- The call into the stack that a pass of the notifier makes from the globals `s`
when `gObservation` is set: `notifyListOfObservers` with the observer list and a
response carrying code 200 and the refreshed representation when
`isListOfObservers` is set, `notifyAllObservers` otherwise. -/
def notifierCall (K : OCApi) (s : ServerState) : NotifyCall :=
  if s.isListOfObservers ≠ 0 then
    NotifyCall.notifyListOfObservers s.myLight.m_resourceHandle
      s.myLight.m_interestedObservers
      { m_errorCode := 200
        m_representation :=
          some (({ s.myLight with
            m_power := wrapInt32 (s.myLight.m_power + 10) } : LightResource).get.1)
        m_interface := some K.DEFAULT_INTERFACE }
  else
    NotifyCall.notifyAllObservers s.myLight.m_resourceHandle

/-- Whether an invocation of `entityHandler` carries the observer flag: the request
is not null and `requestFlag & RequestHandlerFlag::ObserverFlag` is non-zero. -/
def carriesObserverFlag (K : OCApi) (request : Option OCResourceRequest) : Bool :=
  match request with
  | some request => decide (request.requestHandlerFlag &&& K.ObserverFlag ≠ 0)
  | none => false

/-- A sequence of invocations of `entityHandler`, processed one after another, each
with its own request (possibly null) and response object (possibly null): the
globals they leave. -/
def invokeAll (K : OCApi) (s : ServerState) :
    List (Option OCResourceRequest × Option OCResourceResponse) → ServerState
  | [] => s
  | inv :: rest => invokeAll K (entityHandler K s inv.1 inv.2).state rest

/-- The number of threads each invocation of a sequence creates, in order. -/
def threadsCreatedBy (K : OCApi) (s : ServerState) :
    List (Option OCResourceRequest × Option OCResourceResponse) → List Nat
  | [] => []
  | inv :: rest =>
      (entityHandler K s inv.1 inv.2).threadsCreated ::
        threadsCreatedBy K (entityHandler K s inv.1 inv.2).state rest

/-- A request of the given type that carries the request flag only. -/
def plainRequest (K : OCApi) (requestType : String) (rep : OCRepresentation) :
    OCResourceRequest :=
  { requestType := requestType
    requestHandlerFlag := K.RequestFlag
    resourceRepresentation := rep
    observationInfo := { action := ObserveAction.ObserveRegister, obsId := 0 } }

end OC

/-! ## Properties of the binary switch -/

namespace OIC.Service.SH

variable {σ : Type}

theorem PropertyBundle.find_setValue_self (bundle : PropertyBundle) (key : String)
    (val : PropertyValue) : (bundle.setValue key val).find key = some val := by
  induction bundle with
  | nil => simp [PropertyBundle.setValue, PropertyBundle.find]
  | cons p rest ih =>
    obtain ⟨k, v⟩ := p
    by_cases h : k = key
    · simp [PropertyBundle.setValue, PropertyBundle.find, h]
    · simp [PropertyBundle.setValue, PropertyBundle.find, h, ih]

theorem PropertyBundle.getValueBool_setValue_self (bundle : PropertyBundle) (key : String)
    (b : Bool) : (bundle.setValue key (PropertyValue.bool b)).getValueBool key = some b := by
  simp [PropertyBundle.getValueBool, PropertyBundle.find_setValue_self]

theorem PropertyBundle.contains_of_getValueBool {bundle : PropertyBundle} {key : String}
    {b : Bool} (h : bundle.getValueBool key = some b) : bundle.contains key = true := by
  induction bundle with
  | nil => simp [PropertyBundle.getValueBool, PropertyBundle.find] at h
  | cons p rest ih =>
    obtain ⟨k, v⟩ := p
    by_cases hk : k = key
    · simp [PropertyBundle.contains, hk]
    · simp only [PropertyBundle.contains, hk, if_false]
      apply ih
      simpa [PropertyBundle.getValueBool, PropertyBundle.find, hk] using h

theorem BinarySwitchResource.getState_setPropertyBundle_setValue (r : BinarySwitchResource σ)
    (bundle : PropertyBundle) (b : Bool) :
    (r.setPropertyBundle (bundle.setValue KEY_VALUE (PropertyValue.bool b))).getState = b := by
  simp [BinarySwitchResource.getState, BinarySwitchResource.getPropertyBundle,
    BinarySwitchResource.setPropertyBundle, PropertyBundle.getValueBool_setValue_self]

/-- What `onSet` does once the delegate is set and the bundle carries `"value"`, in
terms of the callback's answer. -/
theorem BinarySwitchResource.onSet_eq (r : BinarySwitchResource σ)
    (delegate : BinarySwitchResourceDelegate σ) (app : σ) (bundle : PropertyBundle)
    (hd : r.m_userDelegate = some delegate) (hc : bundle.contains KEY_VALUE = true) :
    r.onSet app bundle =
      match (invokedCallback delegate (requestedValue bundle) app).1 with
      | ResultCode.SUCCESS =>
          (ResultCode.SUCCESS,
            r.setPropertyBundle
              (r.getPropertyBundle.setValue KEY_VALUE (PropertyValue.bool (requestedValue bundle))),
            (invokedCallback delegate (requestedValue bundle) app).2)
      | ResultCode.FAIL =>
          (ResultCode.FAIL, r, (invokedCallback delegate (requestedValue bundle) app).2)
      | _ => (ResultCode.KEEP, r, (invokedCallback delegate (requestedValue bundle) app).2) := by
  unfold BinarySwitchResource.onSet
  simp only [hd, hc, if_true]
  unfold invokedCallback requestedValue
  cases h : (if (match bundle.getValueBool KEY_VALUE with
                 | some b => b
                 | none => false) = true
             then delegate.turnOnCallback app else delegate.turnOffCallback app).1 <;> simp [h]

theorem BinarySwitchResource.onSet_userDelegate (r : BinarySwitchResource σ) (app : σ)
    (bundle : PropertyBundle) : (r.onSet app bundle).2.1.m_userDelegate = r.m_userDelegate := by
  unfold BinarySwitchResource.onSet
  cases hd : r.m_userDelegate with
  | none => simp [hd]
  | some delegate =>
    by_cases hc : bundle.contains KEY_VALUE = true
    · simp only [hc, if_true]
      split <;> simp [BinarySwitchResource.setPropertyBundle, hd]
    · simp [hc, hd]

theorem lastAccepted_cons_getD (x : Bool × ResultCode) (trace : List (Bool × ResultCode))
    (cur : Bool) :
    (lastAccepted (x :: trace)).getD cur =
      (lastAccepted trace).getD (if x.2 = ResultCode.SUCCESS then x.1 else cur) := by
  unfold lastAccepted
  by_cases hx : x.2 = ResultCode.SUCCESS
  · simp only [List.filter_cons, hx, decide_True, if_true]
    cases hf : trace.filter (fun c => decide (c.2 = ResultCode.SUCCESS)) with
    | nil => simp
    | cons y l =>
      have hsome : (y :: l).getLast? = some ((y :: l).getLast (List.cons_ne_nil y l)) :=
        List.getLast?_eq_getLast _ _
      simp [hsome]
  · simp [List.filter_cons, hx]

theorem BinarySwitchResource.getState_onSetAll (delegate : BinarySwitchResourceDelegate σ)
    (bundles : List PropertyBundle) :
    ∀ (r : BinarySwitchResource σ) (app : σ), r.m_userDelegate = some delegate →
      (∀ bundle ∈ bundles, bundle.contains KEY_VALUE = true) →
      (onSetAll r app bundles).1.getState =
        (lastAccepted (callbackTrace delegate app bundles)).getD r.getState := by
  induction bundles with
  | nil => intro r app _ _; simp [onSetAll, callbackTrace, lastAccepted]
  | cons bundle rest ih =>
    intro r app hd hall
    have hc : bundle.contains KEY_VALUE = true := hall bundle (List.mem_cons_self _ _)
    have hrest : ∀ b ∈ rest, b.contains KEY_VALUE = true :=
      fun b hb => hall b (List.mem_cons_of_mem _ hb)
    have hd' : (r.onSet app bundle).2.1.m_userDelegate = some delegate := by
      rw [BinarySwitchResource.onSet_userDelegate, hd]
    have step := ih (r.onSet app bundle).2.1 (r.onSet app bundle).2.2 hd' hrest
    simp only [onSetAll, callbackTrace]
    rw [lastAccepted_cons_getD, step]
    have he := BinarySwitchResource.onSet_eq r delegate app bundle hd hc
    cases hcode : (invokedCallback delegate (requestedValue bundle) app).1 <;>
      simp only [hcode] at he <;>
      simp [he, BinarySwitchResource.getState_setPropertyBundle_setValue]

/-- C1: when a delegate is set, the incoming bundle holds the boolean `v` under
`"value"` and the callback serving `v` returns `SUCCESS`, `onSet` returns `SUCCESS`
and `getState()` on the resource it leaves returns `v`. -/
theorem BinarySwitchResource.onSet_accepted (r : BinarySwitchResource σ)
    (delegate : BinarySwitchResourceDelegate σ) (app : σ) (bundle : PropertyBundle) (v : Bool)
    (hd : r.m_userDelegate = some delegate)
    (hv : bundle.getValueBool KEY_VALUE = some v)
    (hs : (invokedCallback delegate v app).1 = ResultCode.SUCCESS) :
    (r.onSet app bundle).1 = ResultCode.SUCCESS ∧ (r.onSet app bundle).2.1.getState = v := by
  have hc := PropertyBundle.contains_of_getValueBool hv
  have hr : requestedValue bundle = v := by simp [requestedValue, hv]
  have he := BinarySwitchResource.onSet_eq r delegate app bundle hd hc
  rw [hr] at he
  simp only [hs] at he
  rw [he]
  exact ⟨rfl, BinarySwitchResource.getState_setPropertyBundle_setValue _ _ _⟩

/-- C1 at a fresh switch (`value = false`) whose delegate accepts: a PUT of
`{value: true}` returns `SUCCESS` and `getState()` is then `true`. -/
theorem BinarySwitchResource.onSet_accepted_witness :
    (BinarySwitchResource.new : BinarySwitchResource Nat).getState = false ∧
    (((BinarySwitchResource.new.setBinarySwitchResourceDelegate (some acceptAll)).onSet 0
        [(KEY_VALUE, PropertyValue.bool true)]).1 = ResultCode.SUCCESS ∧
      ((BinarySwitchResource.new.setBinarySwitchResourceDelegate (some acceptAll)).onSet 0
        [(KEY_VALUE, PropertyValue.bool true)]).2.1.getState = true) :=
  ⟨by decide,
    BinarySwitchResource.onSet_accepted
      (BinarySwitchResource.new.setBinarySwitchResourceDelegate (some acceptAll)) acceptAll 0
      [(KEY_VALUE, PropertyValue.bool true)] true rfl (by decide) (by decide)⟩

/-- C2: when a delegate is set, the incoming bundle contains `"value"` and the
callback serving the request returns `FAIL`, `onSet` returns `FAIL` and leaves the
resource, its stored bundle included, exactly as it was (so `getState()` is
unchanged). -/
theorem BinarySwitchResource.onSet_rejected (r : BinarySwitchResource σ)
    (delegate : BinarySwitchResourceDelegate σ) (app : σ) (bundle : PropertyBundle)
    (hd : r.m_userDelegate = some delegate)
    (hc : bundle.contains KEY_VALUE = true)
    (hf : (invokedCallback delegate (requestedValue bundle) app).1 = ResultCode.FAIL) :
    (r.onSet app bundle).1 = ResultCode.FAIL ∧
      (r.onSet app bundle).2.1.getPropertyBundle = r.getPropertyBundle ∧
      (r.onSet app bundle).2.1.getState = r.getState := by
  have he := BinarySwitchResource.onSet_eq r delegate app bundle hd hc
  simp only [hf] at he
  rw [he]
  exact ⟨rfl, rfl, rfl⟩

/-- C2 at a fresh switch (`value = false`) whose delegate rejects: a PUT of
`{value: true}` returns `FAIL`, the stored bundle is still `{value: false}` and
`getState()` is still `false`. -/
theorem BinarySwitchResource.onSet_rejected_witness :
    ((BinarySwitchResource.new.setBinarySwitchResourceDelegate (some rejectAll)).onSet 0
        [(KEY_VALUE, PropertyValue.bool true)]).1 = ResultCode.FAIL ∧
      ((BinarySwitchResource.new.setBinarySwitchResourceDelegate (some rejectAll)).onSet 0
        [(KEY_VALUE, PropertyValue.bool true)]).2.1.getPropertyBundle =
        [(KEY_VALUE, PropertyValue.bool false)] ∧
      ((BinarySwitchResource.new.setBinarySwitchResourceDelegate (some rejectAll)).onSet 0
        [(KEY_VALUE, PropertyValue.bool true)]).2.1.getState = false :=
  BinarySwitchResource.onSet_rejected
    (BinarySwitchResource.new.setBinarySwitchResourceDelegate (some rejectAll)) rejectAll 0
    [(KEY_VALUE, PropertyValue.bool true)] rfl (by decide) (by decide)

/-- C3: on a freshly constructed switch with a delegate set, after any finite
sequence of `onSet` calls whose bundles all contain `"value"`, `getState()` returns
the requested value of the last call whose callback returned `SUCCESS`, and the
constructor's value `false` when no call was accepted. -/
theorem BinarySwitchResource.getState_after_onSet_sequence
    (delegate : BinarySwitchResourceDelegate σ) (app : σ) (bundles : List PropertyBundle)
    (hall : ∀ bundle ∈ bundles, bundle.contains KEY_VALUE = true) :
    (onSetAll (BinarySwitchResource.new.setBinarySwitchResourceDelegate (some delegate)) app
        bundles).1.getState =
      match lastAccepted (callbackTrace delegate app bundles) with
      | some v => v
      | none => false := by
  have h := BinarySwitchResource.getState_onSetAll delegate bundles
    (BinarySwitchResource.new.setBinarySwitchResourceDelegate (some delegate)) app rfl hall
  rw [h]
  cases lastAccepted (callbackTrace delegate app bundles) with
  | none => rfl
  | some v => rfl

/-- C3 on three requests `true`, `false`, `true` of which the delegate accepts only
the first: `getState()` ends as `true`, the value of the first request. -/
theorem BinarySwitchResource.getState_after_onSet_sequence_witness :
    (∀ bundle ∈ [[(KEY_VALUE, PropertyValue.bool true)], [(KEY_VALUE, PropertyValue.bool false)],
        [(KEY_VALUE, PropertyValue.bool true)]], PropertyBundle.contains bundle KEY_VALUE = true) ∧
    callbackTrace acceptFirst 0
        [[(KEY_VALUE, PropertyValue.bool true)], [(KEY_VALUE, PropertyValue.bool false)],
          [(KEY_VALUE, PropertyValue.bool true)]] =
      [(true, ResultCode.SUCCESS), (false, ResultCode.FAIL), (true, ResultCode.FAIL)] ∧
    (onSetAll (BinarySwitchResource.new.setBinarySwitchResourceDelegate (some acceptFirst)) 0
        [[(KEY_VALUE, PropertyValue.bool true)], [(KEY_VALUE, PropertyValue.bool false)],
          [(KEY_VALUE, PropertyValue.bool true)]]).1.getState = true :=
  ⟨by decide, by decide,
    BinarySwitchResource.getState_after_onSet_sequence acceptFirst 0
      [[(KEY_VALUE, PropertyValue.bool true)], [(KEY_VALUE, PropertyValue.bool false)],
        [(KEY_VALUE, PropertyValue.bool true)]] (by decide)⟩

/-- C4 as stated fails: on a fresh switch whose delegate answers `KEEP`, a PUT of
`{value: true}` makes `onSet` return `KEEP`, which is not the success result. -/
theorem BinarySwitchResource.onSet_keep_not_success :
    PropertyBundle.contains [(KEY_VALUE, PropertyValue.bool true)] KEY_VALUE = true ∧
    (invokedCallback keepAll true 0).1 = ResultCode.KEEP ∧
    ((BinarySwitchResource.new.setBinarySwitchResourceDelegate (some keepAll)).onSet 0
        [(KEY_VALUE, PropertyValue.bool true)]).1 = ResultCode.KEEP ∧
    ((BinarySwitchResource.new.setBinarySwitchResourceDelegate (some keepAll)).onSet 0
        [(KEY_VALUE, PropertyValue.bool true)]).1 ≠ ResultCode.SUCCESS := by
  decide

/-- C4, amended: when a delegate is set, the incoming bundle contains `"value"` and
the callback serving the request returns `KEEP`, the stored bundle is not mutated
and `onSet` returns `KEEP` itself, a result that is neither `SUCCESS` nor `FAIL`. -/
theorem BinarySwitchResource.onSet_keep (r : BinarySwitchResource σ)
    (delegate : BinarySwitchResourceDelegate σ) (app : σ) (bundle : PropertyBundle)
    (hd : r.m_userDelegate = some delegate)
    (hc : bundle.contains KEY_VALUE = true)
    (hk : (invokedCallback delegate (requestedValue bundle) app).1 = ResultCode.KEEP) :
    (r.onSet app bundle).2.1.getPropertyBundle = r.getPropertyBundle ∧
      (r.onSet app bundle).1 = ResultCode.KEEP ∧
      (r.onSet app bundle).1 ≠ ResultCode.SUCCESS ∧
      (r.onSet app bundle).1 ≠ ResultCode.FAIL := by
  have he := BinarySwitchResource.onSet_eq r delegate app bundle hd hc
  simp only [hk] at he
  rw [he]
  exact ⟨rfl, rfl, fun h => ResultCode.noConfusion h, fun h => ResultCode.noConfusion h⟩

/-- C4, amended, at a switch holding `{value: true}` whose delegate answers `KEEP`: a
PUT of `{value: false}` returns `KEEP` and the stored bundle is still
`{value: true}`. -/
theorem BinarySwitchResource.onSet_keep_witness :
    (((BinarySwitchResource.new.setState true).setBinarySwitchResourceDelegate
        (some keepAll)).onSet 0 [(KEY_VALUE, PropertyValue.bool false)]).2.1.getPropertyBundle =
        [(KEY_VALUE, PropertyValue.bool true)] ∧
      (((BinarySwitchResource.new.setState true).setBinarySwitchResourceDelegate
        (some keepAll)).onSet 0 [(KEY_VALUE, PropertyValue.bool false)]).1 = ResultCode.KEEP ∧
      (((BinarySwitchResource.new.setState true).setBinarySwitchResourceDelegate
        (some keepAll)).onSet 0 [(KEY_VALUE, PropertyValue.bool false)]).1 ≠ ResultCode.SUCCESS ∧
      (((BinarySwitchResource.new.setState true).setBinarySwitchResourceDelegate
        (some keepAll)).onSet 0 [(KEY_VALUE, PropertyValue.bool false)]).1 ≠ ResultCode.FAIL :=
  BinarySwitchResource.onSet_keep
    ((BinarySwitchResource.new.setState true).setBinarySwitchResourceDelegate (some keepAll))
    keepAll 0 [(KEY_VALUE, PropertyValue.bool false)] rfl (by decide) (by decide)

end OIC.Service.SH

/-! ## Properties of the light server -/

namespace OC

theorem LightResource.get_observers (l : LightResource) :
    l.get.2.m_interestedObservers = l.m_interestedObservers := rfl

theorem LightResource.put_observers (l : LightResource) (rep : OCRepresentation) :
    (l.put rep).m_interestedObservers = l.m_interestedObservers := by
  unfold LightResource.put
  cases rep.getValueBool "state" <;> cases rep.getValueInt "power" <;> rfl

/-- The handler runs its request block, then its observer block on what the
request block left. -/
theorem entityHandler_eq_blocks (K : OCApi) (s : ServerState) (request : OCResourceRequest)
    (response : Option OCResourceResponse) :
    entityHandler K s (some request) response =
      { state := (entityHandler.observerBlock K
            (entityHandler.requestBlock K s request response).1 request).1
        response := (entityHandler.requestBlock K s request response).2
        threadsCreated := (entityHandler.observerBlock K
            (entityHandler.requestBlock K s request response).1 request).2 } := by
  simp only [entityHandler, entityHandler.observerBlock]
  by_cases h : request.requestHandlerFlag &&& K.ObserverFlag ≠ 0
  · rw [if_pos h, if_pos h]
    by_cases ht : (entityHandler.requestBlock K s request response).1.startedThread = 0
    · rw [if_pos ht, if_pos (by exact ht)]
      rfl
    · rw [if_neg ht, if_neg (by exact ht)]
      rfl
  · rw [if_neg h, if_neg h]
    rfl

/-- The request block touches nothing but `myLight`, and there neither the observer
list nor the handle. -/
theorem entityHandler.requestBlock_frame (K : OCApi) (s : ServerState)
    (request : OCResourceRequest) (response : Option OCResourceResponse) :
    (entityHandler.requestBlock K s request response).1.gObservation = s.gObservation ∧
    (entityHandler.requestBlock K s request response).1.isListOfObservers =
      s.isListOfObservers ∧
    (entityHandler.requestBlock K s request response).1.startedThread = s.startedThread ∧
    (entityHandler.requestBlock K s request response).1.myLight.m_interestedObservers =
      s.myLight.m_interestedObservers := by
  unfold entityHandler.requestBlock
  by_cases hr : request.requestHandlerFlag &&& K.RequestFlag ≠ 0
  · rw [if_pos hr]
    by_cases hg : request.requestType = "GET"
    · rw [if_pos hg]
      cases response <;> exact ⟨rfl, rfl, rfl, rfl⟩
    · rw [if_neg hg]
      by_cases hp : request.requestType = "PUT"
      · rw [if_pos hp]
        cases response <;>
          exact ⟨rfl, rfl, rfl, LightResource.put_observers _ _⟩
      · rw [if_neg hp]
        split_ifs <;> exact ⟨rfl, rfl, rfl, rfl⟩
  · rw [if_neg hr]
    exact ⟨rfl, rfl, rfl, rfl⟩

/-- Without the request flag the request block does nothing. -/
theorem entityHandler.requestBlock_of_no_flag (K : OCApi) (s : ServerState)
    (request : OCResourceRequest) (response : Option OCResourceResponse)
    (h : request.requestHandlerFlag &&& K.RequestFlag = 0) :
    entityHandler.requestBlock K s request response = (s, response) := by
  unfold entityHandler.requestBlock
  rw [if_neg (by simpa using h)]

/-- The observer block when the observer flag is set. -/
theorem entityHandler.observerBlock_of_flag (K : OCApi) (s : ServerState)
    (request : OCResourceRequest) (h : request.requestHandlerFlag &&& K.ObserverFlag ≠ 0) :
    (entityHandler.observerBlock K s request).1 =
      { s with
        myLight := { s.myLight with
          m_interestedObservers :=
            if ObserveAction.ObserveRegister = request.observationInfo.action then
              s.myLight.m_interestedObservers ++ [request.observationInfo.obsId]
            else
              s.myLight.m_interestedObservers.filter
                (fun id => id ≠ request.observationInfo.obsId) }
        gObservation := 1
        startedThread := if s.startedThread = 0 then 1 else s.startedThread } := by
  unfold entityHandler.observerBlock
  rw [if_pos h]
  cases ha : request.observationInfo.action <;>
    by_cases ht : s.startedThread = 0 <;> simp [ht, ha]

/-- The observer list after `entityHandler` has handled a request. -/
theorem entityHandler_observers (K : OCApi) (s : ServerState) (request : OCResourceRequest)
    (response : Option OCResourceResponse)
    (h : request.requestHandlerFlag &&& K.ObserverFlag ≠ 0) :
    (entityHandler K s (some request) response).state.myLight.m_interestedObservers =
      if ObserveAction.ObserveRegister = request.observationInfo.action then
        s.myLight.m_interestedObservers ++ [request.observationInfo.obsId]
      else
        s.myLight.m_interestedObservers.filter (fun id => id ≠ request.observationInfo.obsId) := by
  rw [entityHandler_eq_blocks, entityHandler.observerBlock_of_flag K _ request h]
  simp only [(entityHandler.requestBlock_frame K s request response).2.2.2]

/-- The observation flag after `entityHandler` has handled a request. -/
theorem entityHandler_gObservation (K : OCApi) (s : ServerState) (request : OCResourceRequest)
    (response : Option OCResourceResponse) :
    (entityHandler K s (some request) response).state.gObservation =
      if request.requestHandlerFlag &&& K.ObserverFlag ≠ 0 then 1 else s.gObservation := by
  rw [entityHandler_eq_blocks]
  by_cases h : request.requestHandlerFlag &&& K.ObserverFlag ≠ 0
  · rw [entityHandler.observerBlock_of_flag K _ request h, if_pos h]
  · rw [if_neg h]
    unfold entityHandler.observerBlock
    rw [if_neg h]
    exact (entityHandler.requestBlock_frame K s request response).1

/-- The handler never writes `isListOfObservers`. -/
theorem entityHandler_isListOfObservers (K : OCApi) (s : ServerState)
    (request : OCResourceRequest) (response : Option OCResourceResponse) :
    (entityHandler K s (some request) response).state.isListOfObservers =
      s.isListOfObservers := by
  rw [entityHandler_eq_blocks]
  by_cases h : request.requestHandlerFlag &&& K.ObserverFlag ≠ 0
  · rw [entityHandler.observerBlock_of_flag K _ request h]
    exact (entityHandler.requestBlock_frame K s request response).2.1
  · unfold entityHandler.observerBlock
    rw [if_neg h]
    exact (entityHandler.requestBlock_frame K s request response).2.1

/-- The threads created by the observer block when the observer flag is set. -/
theorem entityHandler.observerBlock_threads (K : OCApi) (s : ServerState)
    (request : OCResourceRequest) (h : request.requestHandlerFlag &&& K.ObserverFlag ≠ 0) :
    (entityHandler.observerBlock K s request).2 = if s.startedThread = 0 then 1 else 0 := by
  unfold entityHandler.observerBlock
  rw [if_pos h]
  by_cases ht : s.startedThread = 0 <;> simp [ht]

/-- C5 as stated fails: from the initial state, two OBSERVE-register requests for
observer 1 leave the list `[1, 1]`, one entry more than the single registration. -/
theorem entityHandler_register_twice_duplicates :
    (entityHandler sampleApi (ServerState.init 0)
        (some (observeRequest sampleApi ObserveAction.ObserveRegister 1))
        none).state.myLight.m_interestedObservers = [1] ∧
    (entityHandler sampleApi
        (entityHandler sampleApi (ServerState.init 0)
          (some (observeRequest sampleApi ObserveAction.ObserveRegister 1)) none).state
        (some (observeRequest sampleApi ObserveAction.ObserveRegister 1))
        none).state.myLight.m_interestedObservers = [1, 1] ∧
    (entityHandler sampleApi
        (entityHandler sampleApi (ServerState.init 0)
          (some (observeRequest sampleApi ObserveAction.ObserveRegister 1)) none).state
        (some (observeRequest sampleApi ObserveAction.ObserveRegister 1))
        none).state.myLight.m_interestedObservers.length ≠
      (entityHandler sampleApi (ServerState.init 0)
        (some (observeRequest sampleApi ObserveAction.ObserveRegister 1))
        none).state.myLight.m_interestedObservers.length := by
  decide

/-- C5, amended: an OBSERVE-register request appends its observer id to the end of
`m_interestedObservers` whether or not the id is already there; two such requests
with the same id leave the list with two more entries than before, one more than
a single registration. -/
theorem entityHandler_register_twice (K : OCApi) (s : ServerState)
    (first second : OCResourceRequest) (response₁ response₂ : Option OCResourceResponse)
    (h₁ : first.requestHandlerFlag &&& K.ObserverFlag ≠ 0)
    (h₂ : second.requestHandlerFlag &&& K.ObserverFlag ≠ 0)
    (a₁ : first.observationInfo.action = ObserveAction.ObserveRegister)
    (a₂ : second.observationInfo.action = ObserveAction.ObserveRegister)
    (hid : second.observationInfo.obsId = first.observationInfo.obsId) :
    (entityHandler K s (some first) response₁).state.myLight.m_interestedObservers =
        s.myLight.m_interestedObservers ++ [first.observationInfo.obsId] ∧
    (entityHandler K (entityHandler K s (some first) response₁).state (some second)
        response₂).state.myLight.m_interestedObservers =
        s.myLight.m_interestedObservers ++
          [first.observationInfo.obsId, first.observationInfo.obsId] ∧
    (entityHandler K (entityHandler K s (some first) response₁).state (some second)
        response₂).state.myLight.m_interestedObservers.length =
      (entityHandler K s (some first) response₁).state.myLight.m_interestedObservers.length
        + 1 := by
  have e₁ := entityHandler_observers K s first response₁ h₁
  have e₂ := entityHandler_observers K (entityHandler K s (some first) response₁).state second
    response₂ h₂
  rw [a₁] at e₁
  rw [a₂, hid] at e₂
  simp only [if_true] at e₁ e₂
  rw [e₂, e₁]
  simp

/-- C5, amended, on a list that already holds observer 7: registering 7 twice more
leaves three entries. -/
theorem entityHandler_register_twice_witness :
    (entityHandler sampleApi
        { ServerState.init 1 with
          myLight := { LightResource.new with m_interestedObservers := [7] } }
        (some (observeRequest sampleApi ObserveAction.ObserveRegister 7))
        none).state.myLight.m_interestedObservers = [7] ++ [7] ∧
    (entityHandler sampleApi
        (entityHandler sampleApi
          { ServerState.init 1 with
            myLight := { LightResource.new with m_interestedObservers := [7] } }
          (some (observeRequest sampleApi ObserveAction.ObserveRegister 7)) none).state
        (some (observeRequest sampleApi ObserveAction.ObserveRegister 7))
        none).state.myLight.m_interestedObservers = [7] ++ [7, 7] ∧
    (entityHandler sampleApi
        (entityHandler sampleApi
          { ServerState.init 1 with
            myLight := { LightResource.new with m_interestedObservers := [7] } }
          (some (observeRequest sampleApi ObserveAction.ObserveRegister 7)) none).state
        (some (observeRequest sampleApi ObserveAction.ObserveRegister 7))
        none).state.myLight.m_interestedObservers.length =
      (entityHandler sampleApi
        { ServerState.init 1 with
          myLight := { LightResource.new with m_interestedObservers := [7] } }
        (some (observeRequest sampleApi ObserveAction.ObserveRegister 7))
        none).state.myLight.m_interestedObservers.length + 1 :=
  entityHandler_register_twice sampleApi
    { ServerState.init 1 with
      myLight := { LightResource.new with m_interestedObservers := [7] } }
    (observeRequest sampleApi ObserveAction.ObserveRegister 7)
    (observeRequest sampleApi ObserveAction.ObserveRegister 7) none none
    (by decide) (by decide) rfl rfl rfl

/-- C6 as stated fails: in the initial state (`gObservation = 0`, no observers) an
OBSERVE-unregister request for the absent observer 5 sets `gObservation` to 1,
marks the notifier thread as started and creates it. -/
theorem entityHandler_unregister_absent_changes_flag :
    5 ∉ (ServerState.init 0).myLight.m_interestedObservers ∧
    (ServerState.init 0).gObservation = 0 ∧
    (entityHandler sampleApi (ServerState.init 0)
        (some (observeRequest sampleApi ObserveAction.ObserveUnregister 5))
        none).state.gObservation = 1 ∧
    (entityHandler sampleApi (ServerState.init 0)
        (some (observeRequest sampleApi ObserveAction.ObserveUnregister 5))
        none).state.gObservation ≠ (ServerState.init 0).gObservation ∧
    (entityHandler sampleApi (ServerState.init 0)
        (some (observeRequest sampleApi ObserveAction.ObserveUnregister 5))
        none).threadsCreated = 1 := by
  decide

/-- C6, amended: an OBSERVE-unregister request for an id that is not in
`m_interestedObservers` leaves the observer list identical and `isListOfObservers`
untouched, but sets `gObservation` to 1 whatever it was, and creates the notifier
thread when it had not been started; when the request does not carry the request
flag, `myLight` and the response are left wholly as they were. -/
theorem entityHandler_unregister_absent (K : OCApi) (s : ServerState)
    (request : OCResourceRequest) (response : Option OCResourceResponse)
    (hobs : request.requestHandlerFlag &&& K.ObserverFlag ≠ 0)
    (hun : request.observationInfo.action = ObserveAction.ObserveUnregister)
    (habs : request.observationInfo.obsId ∉ s.myLight.m_interestedObservers) :
    (entityHandler K s (some request) response).state.myLight.m_interestedObservers =
        s.myLight.m_interestedObservers ∧
    (entityHandler K s (some request) response).state.isListOfObservers =
        s.isListOfObservers ∧
    (entityHandler K s (some request) response).state.gObservation = 1 ∧
    (entityHandler K s (some request) response).threadsCreated =
        (if s.startedThread = 0 then 1 else 0) ∧
    (request.requestHandlerFlag &&& K.RequestFlag = 0 →
      (entityHandler K s (some request) response).state.myLight = s.myLight ∧
      (entityHandler K s (some request) response).response = response) := by
  have hfilter : s.myLight.m_interestedObservers.filter
      (fun id => decide (id ≠ request.observationInfo.obsId)) =
      s.myLight.m_interestedObservers := by
    rw [List.filter_eq_self]
    intro a ha
    have : a ≠ request.observationInfo.obsId := fun e => habs (e ▸ ha)
    simpa using this
  refine ⟨?_, entityHandler_isListOfObservers K s request response, ?_, ?_, ?_⟩
  · rw [entityHandler_observers K s request response hobs, hun]
    simpa using hfilter
  · rw [entityHandler_gObservation, if_pos hobs]
  · rw [entityHandler_eq_blocks]
    simp only []
    rw [entityHandler.observerBlock_threads K _ request hobs,
      (entityHandler.requestBlock_frame K s request response).2.2.1]
  · intro hreq
    rw [entityHandler_eq_blocks]
    simp only []
    rw [entityHandler.requestBlock_of_no_flag K s request response hreq,
      entityHandler.observerBlock_of_flag K s request hobs, hun]
    simp only [reduceCtorEq, if_false]
    refine ⟨?_, trivial⟩
    rw [hfilter]

/-- C6, amended, in a state with observers `[1, 2]`, `gObservation = 0` and the
thread already started: unregistering the absent observer 5 keeps `[1, 2]` and sets
`gObservation` to 1. -/
theorem entityHandler_unregister_absent_witness :
    (entityHandler sampleApi
        { ServerState.init 1 with
          myLight := { LightResource.new with m_interestedObservers := [1, 2] }
          startedThread := 1 }
        (some (observeRequest sampleApi ObserveAction.ObserveUnregister 5))
        none).state.myLight.m_interestedObservers = [1, 2] ∧
    (entityHandler sampleApi
        { ServerState.init 1 with
          myLight := { LightResource.new with m_interestedObservers := [1, 2] }
          startedThread := 1 }
        (some (observeRequest sampleApi ObserveAction.ObserveUnregister 5))
        none).state.gObservation = 1 :=
  have h := entityHandler_unregister_absent sampleApi
    { ServerState.init 1 with
      myLight := { LightResource.new with m_interestedObservers := [1, 2] }
      startedThread := 1 }
    (observeRequest sampleApi ObserveAction.ObserveUnregister 5) none
    (by decide) rfl (by decide)
  ⟨h.1, h.2.2.1⟩

/-- The calls made by a pass of the notifier. -/
theorem ChangeLightRepresentation_calls (K : OCApi) (platform : OCPlatform) (s : ServerState) :
    (ChangeLightRepresentation K platform s).2 =
      if s.gObservation ≠ 0 then [notifierCall K s] else [] := by
  unfold ChangeLightRepresentation notifierCall
  by_cases h : s.gObservation ≠ 0
  · rw [if_pos h, if_pos h]
    by_cases hl : s.isListOfObservers ≠ 0
    · rw [if_pos hl, if_pos hl]
      simp only []
      split_ifs <;> rfl
    · rw [if_neg hl, if_neg hl]
      simp only []
      split_ifs <;> rfl
  · rw [if_neg h, if_neg h]

/-- The observation flag after a pass of the notifier. -/
theorem ChangeLightRepresentation_gObservation (K : OCApi) (platform : OCPlatform)
    (s : ServerState) :
    (ChangeLightRepresentation K platform s).1.gObservation =
      if s.gObservation ≠ 0 ∧ platform (notifierCall K s) = OCStackResult.OC_STACK_NO_OBSERVERS
      then 0 else s.gObservation := by
  unfold ChangeLightRepresentation notifierCall
  by_cases h : s.gObservation ≠ 0
  · rw [if_pos h]
    by_cases hl : s.isListOfObservers ≠ 0
    · rw [if_pos hl, if_pos hl]
      simp only []
      split_ifs with h1 h2 h2
      · rfl
      · exact absurd ⟨h, h1.symm⟩ h2
      · exact absurd h2.2.symm h1
      · rfl
    · rw [if_neg hl, if_neg hl]
      simp only []
      split_ifs with h1 h2 h2
      · rfl
      · exact absurd ⟨h, h1.symm⟩ h2
      · exact absurd h2.2.symm h1
      · rfl
  · rw [if_neg h, if_neg (fun hh => h hh.1)]

/-- What a pass of the notifier leaves untouched. -/
theorem ChangeLightRepresentation_frame (K : OCApi) (platform : OCPlatform) (s : ServerState) :
    (ChangeLightRepresentation K platform s).1.isListOfObservers = s.isListOfObservers ∧
    (ChangeLightRepresentation K platform s).1.startedThread = s.startedThread ∧
    (ChangeLightRepresentation K platform s).1.myLight.m_name = s.myLight.m_name ∧
    (ChangeLightRepresentation K platform s).1.myLight.m_state = s.myLight.m_state ∧
    (ChangeLightRepresentation K platform s).1.myLight.m_lightUri = s.myLight.m_lightUri ∧
    (ChangeLightRepresentation K platform s).1.myLight.m_resourceHandle =
      s.myLight.m_resourceHandle ∧
    (ChangeLightRepresentation K platform s).1.myLight.m_interestedObservers =
      s.myLight.m_interestedObservers := by
  unfold ChangeLightRepresentation
  by_cases h : s.gObservation ≠ 0
  · rw [if_pos h]
    by_cases hl : s.isListOfObservers ≠ 0
    · rw [if_pos hl]
      simp only []
      split_ifs <;> exact ⟨rfl, rfl, rfl, rfl, rfl, rfl, rfl⟩
    · rw [if_neg hl]
      simp only []
      split_ifs <;> exact ⟨rfl, rfl, rfl, rfl, rfl, rfl, rfl⟩
  · rw [if_neg h]
    exact ⟨rfl, rfl, rfl, rfl, rfl, rfl, rfl⟩

/-- The power after a pass of the notifier. -/
theorem ChangeLightRepresentation_power (K : OCApi) (platform : OCPlatform) (s : ServerState) :
    (ChangeLightRepresentation K platform s).1.myLight.m_power =
      if s.gObservation ≠ 0 then wrapInt32 (s.myLight.m_power + 10) else s.myLight.m_power := by
  unfold ChangeLightRepresentation
  by_cases h : s.gObservation ≠ 0
  · rw [if_pos h, if_pos h]
    by_cases hl : s.isListOfObservers ≠ 0
    · rw [if_pos hl]
      simp only []
      split_ifs <;> rfl
    · rw [if_neg hl]
      simp only []
      split_ifs <;> rfl
  · rw [if_neg h, if_neg h]

theorem unregisteredLater_cons (id : OCObservationId) (o : ObservationInfo)
    (rest : List ObservationInfo) :
    unregisteredLater id (o :: rest) =
      (decide (o.action = ObserveAction.ObserveUnregister ∧ o.obsId = id) ||
        unregisteredLater id rest) := by
  simp [unregisteredLater]

/-- The observer list after a sequence of OBSERVE requests: what was there and is
not unregistered by the sequence, followed by what the sequence registers and
keeps. -/
theorem handleAll_observers (K : OCApi) :
    ∀ (reqs : List (OCResourceRequest × Option OCResourceResponse)) (s : ServerState),
      (∀ q ∈ reqs, q.1.requestHandlerFlag &&& K.ObserverFlag ≠ 0) →
      (handleAll K s reqs).myLight.m_interestedObservers =
        s.myLight.m_interestedObservers.filter
            (fun id => !unregisteredLater id (reqs.map (fun q => q.1.observationInfo))) ++
          registeredAndKept (reqs.map (fun q => q.1.observationInfo)) := by
  intro reqs
  induction reqs with
  | nil => intro s _; simp [handleAll, unregisteredLater, registeredAndKept]
  | cons q rest ih =>
    intro s hall
    have hq := hall q (List.mem_cons_self _ _)
    have hrest : ∀ r ∈ rest, r.1.requestHandlerFlag &&& K.ObserverFlag ≠ 0 :=
      fun r hr => hall r (List.mem_cons_of_mem _ hr)
    simp only [handleAll, List.map_cons]
    rw [ih _ hrest, entityHandler_observers K s q.1 q.2 hq]
    cases ha : q.1.observationInfo.action with
    | ObserveRegister =>
      simp only [if_true, List.filter_append, registeredAndKept, ha, true_and,
        unregisteredLater_cons, reduceCtorEq, false_and, decide_False, Bool.false_or]
      cases hu : unregisteredLater q.1.observationInfo.obsId
          (rest.map (fun q => q.1.observationInfo)) <;> simp [List.filter_cons, hu]
    | ObserveUnregister =>
      simp only [reduceCtorEq, if_false, registeredAndKept, ha, false_and, List.filter_filter]
      congr 1
      apply List.filter_congr
      intro a _
      rw [unregisteredLater_cons, ha]
      by_cases hax : a = q.1.observationInfo.obsId
      · simp [hax]
      · have hxa : ¬ q.1.observationInfo.obsId = a := fun e => hax e.symm
        simp [hax, hxa]

/-- The handler sets the observation flag on a request that carries the observer
flag and leaves it alone otherwise, so the flag is 1 after a sequence of requests
that starts with the flag at 1 or contains an OBSERVE request. -/
theorem handleAll_gObservation (K : OCApi) :
    ∀ (reqs : List (OCResourceRequest × Option OCResourceResponse)) (s : ServerState),
      (s.gObservation = 1 ∨ ∃ q ∈ reqs, q.1.requestHandlerFlag &&& K.ObserverFlag ≠ 0) →
      (handleAll K s reqs).gObservation = 1 := by
  intro reqs
  induction reqs with
  | nil =>
    intro s h
    rcases h with h | ⟨q, hq, _⟩
    · simpa [handleAll] using h
    · simp at hq
  | cons q rest ih =>
    intro s h
    simp only [handleAll]
    apply ih
    by_cases hq : q.1.requestHandlerFlag &&& K.ObserverFlag ≠ 0
    · left
      rw [entityHandler_gObservation, if_pos hq]
    · rcases h with h | ⟨r, hr, hflag⟩
      · left
        rw [entityHandler_gObservation, if_neg hq]
        exact h
      · rcases List.mem_cons.mp hr with rfl | hr'
        · exact absurd hflag hq
        · exact Or.inr ⟨r, hr', hflag⟩

theorem handleAll_isListOfObservers (K : OCApi) :
    ∀ (reqs : List (OCResourceRequest × Option OCResourceResponse)) (s : ServerState),
      (handleAll K s reqs).isListOfObservers = s.isListOfObservers := by
  intro reqs
  induction reqs with
  | nil => intro s; rfl
  | cons q rest ih =>
    intro s
    simp only [handleAll]
    rw [ih, entityHandler_isListOfObservers]

theorem wrapInt32_add_ten_ne (p : Int) : wrapInt32 (p + 10) ≠ p := by
  unfold wrapInt32
  norm_num
  omega

/-- C7: after any non-empty sequence of OBSERVE-register / OBSERVE-unregister
requests handled from the initial state, a pass of the notifier with
`isListOfObservers` set makes exactly one call, `notifyListOfObservers`, and the id
list it passes holds the ids registered and not unregistered later, one per
registration, in registration order; and an OBSERVE-unregister request for `x`
leaves the list with every occurrence of `x` removed and the other ids in order. -/
theorem notifyListOfObservers_after_observe_requests (K : OCApi) (platform : OCPlatform)
    (isListOfObservers : Int) (reqs : List (OCResourceRequest × Option OCResourceResponse))
    (hlist : isListOfObservers ≠ 0) (hne : reqs ≠ [])
    (hobs : ∀ q ∈ reqs, q.1.requestHandlerFlag &&& K.ObserverFlag ≠ 0) :
    (∃ handle response,
      (ChangeLightRepresentation K platform
          (handleAll K (ServerState.init isListOfObservers) reqs)).2 =
        [NotifyCall.notifyListOfObservers handle
          (registeredAndKept (reqs.map (fun q => q.1.observationInfo))) response]) ∧
    (∀ (s : ServerState) (request : OCResourceRequest) (response : Option OCResourceResponse),
      request.requestHandlerFlag &&& K.ObserverFlag ≠ 0 →
      request.observationInfo.action = ObserveAction.ObserveUnregister →
      (entityHandler K s (some request) response).state.myLight.m_interestedObservers =
        s.myLight.m_interestedObservers.filter
          (fun id => decide (id ≠ request.observationInfo.obsId))) := by
  constructor
  · have hg : (handleAll K (ServerState.init isListOfObservers) reqs).gObservation = 1 := by
      apply handleAll_gObservation
      right
      cases reqs with
      | nil => exact absurd rfl hne
      | cons q rest => exact ⟨q, List.mem_cons_self _ _, hobs q (List.mem_cons_self _ _)⟩
    have hl : (handleAll K (ServerState.init isListOfObservers) reqs).isListOfObservers ≠ 0 := by
      rw [handleAll_isListOfObservers]
      exact hlist
    have ho := handleAll_observers K reqs (ServerState.init isListOfObservers) hobs
    have hinit : (ServerState.init isListOfObservers).myLight.m_interestedObservers = [] := rfl
    rw [hinit, List.filter_nil, List.nil_append] at ho
    rw [ChangeLightRepresentation_calls, if_pos (by rw [hg]; decide)]
    unfold notifierCall
    rw [if_pos hl, ho]
    exact ⟨_, _, rfl⟩
  · intro s request response hflag hun
    rw [entityHandler_observers K s request response hflag, hun]
    simp

/-- C7 on the sequence register 1, register 2, unregister 1: the next pass of the
notifier calls `notifyListOfObservers` with the list `[2]`. -/
theorem notifyListOfObservers_after_observe_requests_witness :
    ∃ handle response,
      (ChangeLightRepresentation sampleApi (fun _ => OCStackResult.OC_STACK_OK)
          (handleAll sampleApi (ServerState.init 1)
            [(observeRequest sampleApi ObserveAction.ObserveRegister 1, none),
             (observeRequest sampleApi ObserveAction.ObserveRegister 2, none),
             (observeRequest sampleApi ObserveAction.ObserveUnregister 1, none)])).2 =
        [NotifyCall.notifyListOfObservers handle [2] response] :=
  (notifyListOfObservers_after_observe_requests sampleApi (fun _ => OCStackResult.OC_STACK_OK) 1
    [(observeRequest sampleApi ObserveAction.ObserveRegister 1, none),
     (observeRequest sampleApi ObserveAction.ObserveRegister 2, none),
     (observeRequest sampleApi ObserveAction.ObserveUnregister 1, none)]
    (by decide) (by decide) (by decide)).1

/-- C8 as stated fails: after register 1, unregister 1 the observer list is empty,
yet a pass of the notifier (the stack answering `OC_STACK_OK`) calls
`notifyListOfObservers` with the empty list and leaves `gObservation` at 1. -/
theorem ChangeLightRepresentation_after_all_unregistered_notifies :
    (handleAll sampleApi (ServerState.init 1)
        [(observeRequest sampleApi ObserveAction.ObserveRegister 1, none),
         (observeRequest sampleApi ObserveAction.ObserveUnregister 1, none)]
      ).myLight.m_interestedObservers = [] ∧
    (ChangeLightRepresentation sampleApi (fun _ => OCStackResult.OC_STACK_OK)
        (handleAll sampleApi (ServerState.init 1)
          [(observeRequest sampleApi ObserveAction.ObserveRegister 1, none),
           (observeRequest sampleApi ObserveAction.ObserveUnregister 1, none)])).2 =
      [notifierCall sampleApi
        (handleAll sampleApi (ServerState.init 1)
          [(observeRequest sampleApi ObserveAction.ObserveRegister 1, none),
           (observeRequest sampleApi ObserveAction.ObserveUnregister 1, none)])] ∧
    (ChangeLightRepresentation sampleApi (fun _ => OCStackResult.OC_STACK_OK)
        (handleAll sampleApi (ServerState.init 1)
          [(observeRequest sampleApi ObserveAction.ObserveRegister 1, none),
           (observeRequest sampleApi ObserveAction.ObserveUnregister 1, none)])).2 ≠ [] ∧
    (ChangeLightRepresentation sampleApi (fun _ => OCStackResult.OC_STACK_OK)
        (handleAll sampleApi (ServerState.init 1)
          [(observeRequest sampleApi ObserveAction.ObserveRegister 1, none),
           (observeRequest sampleApi ObserveAction.ObserveUnregister 1, none)])).1.gObservation
      = 1 := by
  decide

/-- C8, amended: after a request sequence that contains an OBSERVE request and
leaves `m_interestedObservers` empty, `gObservation` is 1, so a pass of the notifier
does make exactly one delivery call (`notifyListOfObservers` with the empty id list
when `isListOfObservers` is set, `notifyAllObservers` otherwise); it leaves
`gObservation` equal to 0 exactly when that call returns `OC_STACK_NO_OBSERVERS`,
and equal to 1 otherwise. -/
theorem ChangeLightRepresentation_after_all_unregistered (K : OCApi) (platform : OCPlatform)
    (s : ServerState) (reqs : List (OCResourceRequest × Option OCResourceResponse))
    (hsome : ∃ q ∈ reqs, q.1.requestHandlerFlag &&& K.ObserverFlag ≠ 0)
    (hempty : (handleAll K s reqs).myLight.m_interestedObservers = []) :
    (ChangeLightRepresentation K platform (handleAll K s reqs)).2 =
        [notifierCall K (handleAll K s reqs)] ∧
    ((∃ handle, notifierCall K (handleAll K s reqs) = NotifyCall.notifyAllObservers handle) ∨
      ∃ handle response, notifierCall K (handleAll K s reqs) =
        NotifyCall.notifyListOfObservers handle [] response) ∧
    ((ChangeLightRepresentation K platform (handleAll K s reqs)).1.gObservation = 0 ↔
      platform (notifierCall K (handleAll K s reqs)) = OCStackResult.OC_STACK_NO_OBSERVERS) ∧
    (platform (notifierCall K (handleAll K s reqs)) ≠ OCStackResult.OC_STACK_NO_OBSERVERS →
      (ChangeLightRepresentation K platform (handleAll K s reqs)).1.gObservation = 1) := by
  have hg : (handleAll K s reqs).gObservation = 1 := handleAll_gObservation K reqs s (Or.inr hsome)
  have hg0 : (handleAll K s reqs).gObservation ≠ 0 := by rw [hg]; decide
  refine ⟨?_, ?_, ?_, ?_⟩
  · rw [ChangeLightRepresentation_calls, if_pos hg0]
  · unfold notifierCall
    by_cases hl : (handleAll K s reqs).isListOfObservers ≠ 0
    · rw [if_pos hl, hempty]
      exact Or.inr ⟨_, _, rfl⟩
    · rw [if_neg hl]
      exact Or.inl ⟨_, rfl⟩
  · rw [ChangeLightRepresentation_gObservation]
    by_cases hp : platform (notifierCall K (handleAll K s reqs)) =
        OCStackResult.OC_STACK_NO_OBSERVERS
    · rw [if_pos ⟨hg0, hp⟩]
      exact ⟨fun _ => hp, fun _ => rfl⟩
    · rw [if_neg (fun hh => hp hh.2), hg]
      exact ⟨fun h => absurd h (by decide), fun h => absurd h hp⟩
  · intro hp
    rw [ChangeLightRepresentation_gObservation, if_neg (fun hh => hp hh.2), hg]

/-- C8, amended, on register 1, unregister 1 in broadcast mode with the stack
answering `OC_STACK_NO_OBSERVERS`: the pass calls `notifyAllObservers` once and
leaves `gObservation` equal to 0. -/
theorem ChangeLightRepresentation_after_all_unregistered_witness :
    (ChangeLightRepresentation sampleApi (fun _ => OCStackResult.OC_STACK_NO_OBSERVERS)
        (handleAll sampleApi (ServerState.init 0)
          [(observeRequest sampleApi ObserveAction.ObserveRegister 1, none),
           (observeRequest sampleApi ObserveAction.ObserveUnregister 1, none)])).2 =
      [NotifyCall.notifyAllObservers 0] ∧
    (ChangeLightRepresentation sampleApi (fun _ => OCStackResult.OC_STACK_NO_OBSERVERS)
        (handleAll sampleApi (ServerState.init 0)
          [(observeRequest sampleApi ObserveAction.ObserveRegister 1, none),
           (observeRequest sampleApi ObserveAction.ObserveUnregister 1, none)])).1.gObservation
      = 0 :=
  have h := ChangeLightRepresentation_after_all_unregistered sampleApi
    (fun _ => OCStackResult.OC_STACK_NO_OBSERVERS) (ServerState.init 0)
    [(observeRequest sampleApi ObserveAction.ObserveRegister 1, none),
     (observeRequest sampleApi ObserveAction.ObserveUnregister 1, none)]
    ⟨(observeRequest sampleApi ObserveAction.ObserveRegister 1, none), by decide, by decide⟩
    (by decide)
  ⟨h.1, h.2.2.1.mpr rfl⟩

/-- C9: in a state with `gObservation` set, a pass of the notifier makes exactly one
delivery call and sets `gObservation` to 0 if and only if that call returned
`OC_STACK_NO_OBSERVERS`; for every other status `gObservation` keeps its value; and
`isListOfObservers`, `startedThread` and every field of `myLight` other than
`m_power` and `m_lightRep` are left as they were. -/
theorem ChangeLightRepresentation_stop_when_empty (K : OCApi) (platform : OCPlatform)
    (s : ServerState) (h : s.gObservation ≠ 0) :
    (ChangeLightRepresentation K platform s).2 = [notifierCall K s] ∧
    ((ChangeLightRepresentation K platform s).1.gObservation = 0 ↔
      platform (notifierCall K s) = OCStackResult.OC_STACK_NO_OBSERVERS) ∧
    (platform (notifierCall K s) ≠ OCStackResult.OC_STACK_NO_OBSERVERS →
      (ChangeLightRepresentation K platform s).1.gObservation = s.gObservation) ∧
    (ChangeLightRepresentation K platform s).1.isListOfObservers = s.isListOfObservers ∧
    (ChangeLightRepresentation K platform s).1.startedThread = s.startedThread ∧
    (ChangeLightRepresentation K platform s).1.myLight.m_name = s.myLight.m_name ∧
    (ChangeLightRepresentation K platform s).1.myLight.m_state = s.myLight.m_state ∧
    (ChangeLightRepresentation K platform s).1.myLight.m_lightUri = s.myLight.m_lightUri ∧
    (ChangeLightRepresentation K platform s).1.myLight.m_resourceHandle =
      s.myLight.m_resourceHandle ∧
    (ChangeLightRepresentation K platform s).1.myLight.m_interestedObservers =
      s.myLight.m_interestedObservers := by
  refine ⟨?_, ?_, ?_, ChangeLightRepresentation_frame K platform s⟩
  · rw [ChangeLightRepresentation_calls, if_pos h]
  · rw [ChangeLightRepresentation_gObservation]
    by_cases hp : platform (notifierCall K s) = OCStackResult.OC_STACK_NO_OBSERVERS
    · rw [if_pos ⟨h, hp⟩]
      exact ⟨fun _ => hp, fun _ => rfl⟩
    · rw [if_neg (fun hh => hp hh.2)]
      exact ⟨fun h0 => absurd h0 h, fun hh => absurd hh hp⟩
  · intro hp
    rw [ChangeLightRepresentation_gObservation, if_neg (fun hh => hp hh.2)]

/-- C9 on the initial light with `gObservation = 1`: when the stack answers
`OC_STACK_NO_OBSERVERS` the pass ends with `gObservation = 0`, and when it answers
`OC_STACK_OK` with `gObservation = 1`. -/
theorem ChangeLightRepresentation_stop_when_empty_witness :
    (ChangeLightRepresentation sampleApi (fun _ => OCStackResult.OC_STACK_NO_OBSERVERS)
        { ServerState.init 0 with gObservation := 1 }).1.gObservation = 0 ∧
    (ChangeLightRepresentation sampleApi (fun _ => OCStackResult.OC_STACK_OK)
        { ServerState.init 0 with gObservation := 1 }).1.gObservation = 1 :=
  ⟨(ChangeLightRepresentation_stop_when_empty sampleApi
      (fun _ => OCStackResult.OC_STACK_NO_OBSERVERS)
      { ServerState.init 0 with gObservation := 1 } (by decide)).2.1.mpr rfl,
    (ChangeLightRepresentation_stop_when_empty sampleApi (fun _ => OCStackResult.OC_STACK_OK)
      { ServerState.init 0 with gObservation := 1 } (by decide)).2.2.1 (by decide)⟩

/-- C10 as stated fails: the state reached by register 3, a pass of the notifier
and unregister 3 has an empty observer list, yet the next pass calls
`notifyAllObservers` and raises `m_power` from 10 to 20. -/
theorem ChangeLightRepresentation_scans_empty_observer_list :
    (run sampleApi (ServerState.init 0)
        [Step.request (some (observeRequest sampleApi ObserveAction.ObserveRegister 3)) none,
         Step.cycle (fun _ => OCStackResult.OC_STACK_OK),
         Step.request (some (observeRequest sampleApi ObserveAction.ObserveUnregister 3)) none]
      ).myLight.m_interestedObservers = [] ∧
    (run sampleApi (ServerState.init 0)
        [Step.request (some (observeRequest sampleApi ObserveAction.ObserveRegister 3)) none,
         Step.cycle (fun _ => OCStackResult.OC_STACK_OK),
         Step.request (some (observeRequest sampleApi ObserveAction.ObserveUnregister 3)) none]
      ).myLight.m_power = 10 ∧
    (ChangeLightRepresentation sampleApi (fun _ => OCStackResult.OC_STACK_OK)
      (run sampleApi (ServerState.init 0)
        [Step.request (some (observeRequest sampleApi ObserveAction.ObserveRegister 3)) none,
         Step.cycle (fun _ => OCStackResult.OC_STACK_OK),
         Step.request (some (observeRequest sampleApi ObserveAction.ObserveUnregister 3)) none])
      ).2 = [NotifyCall.notifyAllObservers 0] ∧
    (ChangeLightRepresentation sampleApi (fun _ => OCStackResult.OC_STACK_OK)
      (run sampleApi (ServerState.init 0)
        [Step.request (some (observeRequest sampleApi ObserveAction.ObserveRegister 3)) none,
         Step.cycle (fun _ => OCStackResult.OC_STACK_OK),
         Step.request (some (observeRequest sampleApi ObserveAction.ObserveUnregister 3)) none])
      ).1.myLight.m_power = 20 := by
  decide

/-- C10, amended: a pass of the notifier is gated by `gObservation`, not by the
observer list: whatever `m_interestedObservers` holds, the pass issues no notify
call exactly when `gObservation` is 0, and it leaves the globals (`m_power` and the
representation included) unchanged exactly when `gObservation` is 0. -/
theorem ChangeLightRepresentation_gated_by_gObservation (K : OCApi) (platform : OCPlatform)
    (s : ServerState) :
    ((ChangeLightRepresentation K platform s).2 = [] ↔ s.gObservation = 0) ∧
    ((ChangeLightRepresentation K platform s).1 = s ↔ s.gObservation = 0) ∧
    ((ChangeLightRepresentation K platform s).1.myLight.m_power = s.myLight.m_power ↔
      s.gObservation = 0) := by
  have hpow : (ChangeLightRepresentation K platform s).1.myLight.m_power = s.myLight.m_power ↔
      s.gObservation = 0 := by
    rw [ChangeLightRepresentation_power]
    by_cases h : s.gObservation = 0
    · rw [if_neg (not_not.mpr h)]
      exact ⟨fun _ => h, fun _ => rfl⟩
    · rw [if_pos h]
      exact ⟨fun e => absurd e (wrapInt32_add_ten_ne _), fun e => absurd e h⟩
  refine ⟨?_, ?_, hpow⟩
  · rw [ChangeLightRepresentation_calls]
    by_cases h : s.gObservation = 0
    · rw [if_neg (not_not.mpr h)]
      exact ⟨fun _ => h, fun _ => rfl⟩
    · rw [if_pos h]
      exact ⟨fun e => absurd e (List.cons_ne_nil _ _), fun e => absurd e h⟩
  · constructor
    · intro e
      exact hpow.mp (by rw [e])
    · intro h
      unfold ChangeLightRepresentation
      rw [if_neg (not_not.mpr h)]

/-- Without the observer flag the observer block does nothing. -/
theorem entityHandler.observerBlock_of_no_flag (K : OCApi) (s : ServerState)
    (request : OCResourceRequest) (h : ¬ request.requestHandlerFlag &&& K.ObserverFlag ≠ 0) :
    entityHandler.observerBlock K s request = (s, 0) := by
  unfold entityHandler.observerBlock
  rw [if_neg h]

/-- The threads an invocation creates: one when it carries the observer flag and
no thread has been started, none otherwise. -/
theorem entityHandler_threadsCreated (K : OCApi) (s : ServerState)
    (request : Option OCResourceRequest) (response : Option OCResourceResponse) :
    (entityHandler K s request response).threadsCreated =
      if carriesObserverFlag K request = true ∧ s.startedThread = 0 then 1 else 0 := by
  cases request with
  | none => simp [entityHandler, carriesObserverFlag]
  | some request =>
    rw [entityHandler_eq_blocks]
    simp only [carriesObserverFlag, decide_eq_true_eq]
    by_cases h : request.requestHandlerFlag &&& K.ObserverFlag ≠ 0
    · rw [entityHandler.observerBlock_threads K _ request h,
        (entityHandler.requestBlock_frame K s request response).2.2.1]
      by_cases ht : s.startedThread = 0
      · rw [if_pos ht, if_pos ⟨h, ht⟩]
      · rw [if_neg ht, if_neg (fun hh => ht hh.2)]
    · rw [entityHandler.observerBlock_of_no_flag K _ request h, if_neg (fun hh => h hh.1)]

/-- The one-shot flag after an invocation. -/
theorem entityHandler_startedThread (K : OCApi) (s : ServerState)
    (request : Option OCResourceRequest) (response : Option OCResourceResponse) :
    (entityHandler K s request response).state.startedThread =
      if carriesObserverFlag K request = true ∧ s.startedThread = 0 then 1
      else s.startedThread := by
  cases request with
  | none => simp [entityHandler, carriesObserverFlag]
  | some request =>
    rw [entityHandler_eq_blocks]
    simp only [carriesObserverFlag, decide_eq_true_eq]
    by_cases h : request.requestHandlerFlag &&& K.ObserverFlag ≠ 0
    · rw [entityHandler.observerBlock_of_flag K _ request h]
      simp only [(entityHandler.requestBlock_frame K s request response).2.2.1]
      by_cases ht : s.startedThread = 0
      · rw [if_pos ht, if_pos ⟨h, ht⟩]
      · rw [if_neg ht, if_neg (fun hh => ht hh.2)]
    · rw [entityHandler.observerBlock_of_no_flag K _ request h, if_neg (fun hh => h hh.1)]
      exact (entityHandler.requestBlock_frame K s request response).2.2.1

/-- The one-shot flag is still 0 after a sequence of invocations exactly when it was
0 before and no invocation of the sequence carried the observer flag. -/
theorem invokeAll_startedThread_eq_zero (K : OCApi) :
    ∀ (invs : List (Option OCResourceRequest × Option OCResourceResponse)) (s : ServerState),
      (invokeAll K s invs).startedThread = 0 ↔
        (s.startedThread = 0 ∧ ∀ p ∈ invs, carriesObserverFlag K p.1 = false) := by
  intro invs
  induction invs with
  | nil => intro s; simp [invokeAll]
  | cons inv rest ih =>
    intro s
    simp only [invokeAll, List.mem_cons, forall_eq_or_imp]
    rw [ih, entityHandler_startedThread]
    by_cases hc : carriesObserverFlag K inv.1 = true
    · by_cases ht : s.startedThread = 0
      · rw [if_pos ⟨hc, ht⟩]
        simp [hc]
      · rw [if_neg (fun hh => ht hh.2)]
        simp [ht]
    · rw [if_neg (fun hh => hc hh.1)]
      have hf : carriesObserverFlag K inv.1 = false := by simpa using hc
      simp [hf]

/-- Once the one-shot flag is set, no invocation creates a thread. -/
theorem threadsCreatedBy_of_started (K : OCApi) :
    ∀ (invs : List (Option OCResourceRequest × Option OCResourceResponse)) (s : ServerState),
      s.startedThread ≠ 0 → (threadsCreatedBy K s invs).sum = 0 := by
  intro invs
  induction invs with
  | nil => intro s _; rfl
  | cons inv rest ih =>
    intro s hs
    simp only [threadsCreatedBy, List.sum_cons]
    rw [entityHandler_threadsCreated, if_neg (fun hh => hs hh.2), ih, Nat.zero_add]
    rw [entityHandler_startedThread, if_neg (fun hh => hs hh.2)]
    exact hs

/-- A sequence of invocations creates at most one thread. -/
theorem threadsCreatedBy_sum_le_one (K : OCApi) :
    ∀ (invs : List (Option OCResourceRequest × Option OCResourceResponse)) (s : ServerState),
      (threadsCreatedBy K s invs).sum ≤ 1 := by
  intro invs
  induction invs with
  | nil => intro s; simp [threadsCreatedBy]
  | cons inv rest ih =>
    intro s
    simp only [threadsCreatedBy, List.sum_cons]
    rw [entityHandler_threadsCreated]
    by_cases hc : carriesObserverFlag K inv.1 = true ∧ s.startedThread = 0
    · rw [if_pos hc, threadsCreatedBy_of_started]
      rw [entityHandler_startedThread, if_pos hc]
      decide
    · rw [if_neg hc, Nat.zero_add]
      exact ih _

/-- C11 as stated fails: when an OBSERVE-unregister request comes first, it is that
request which creates the thread, and the first OBSERVE-register request, coming
after it, creates none. -/
theorem entityHandler_thread_started_by_unregister :
    threadsCreatedBy sampleApi (ServerState.init 0)
        [(some (observeRequest sampleApi ObserveAction.ObserveUnregister 5), none),
         (some (observeRequest sampleApi ObserveAction.ObserveRegister 1), none)] = [1, 0] ∧
    (entityHandler sampleApi (ServerState.init 0)
        (some (observeRequest sampleApi ObserveAction.ObserveUnregister 5))
        none).threadsCreated = 1 ∧
    (entityHandler sampleApi
        (invokeAll sampleApi (ServerState.init 0)
          [(some (observeRequest sampleApi ObserveAction.ObserveUnregister 5), none)])
        (some (observeRequest sampleApi ObserveAction.ObserveRegister 1))
        none).threadsCreated = 0 := by
  decide

/-- C11, amended: over every finite sequence of `entityHandler` invocations from
program start, the notifier thread is created at most once, and an invocation
creates it exactly when it is the first one that carries the observer flag, be its
action OBSERVE-register or OBSERVE-unregister; no invocation before that one and
none without the observer flag creates it. -/
theorem entityHandler_single_start (K : OCApi) (isListOfObservers : Int)
    (invs : List (Option OCResourceRequest × Option OCResourceResponse)) :
    (threadsCreatedBy K (ServerState.init isListOfObservers) invs).sum ≤ 1 ∧
    ∀ (pre post : List (Option OCResourceRequest × Option OCResourceResponse))
      (inv : Option OCResourceRequest × Option OCResourceResponse),
      invs = pre ++ inv :: post →
      ((entityHandler K (invokeAll K (ServerState.init isListOfObservers) pre)
          inv.1 inv.2).threadsCreated = 1 ↔
        (carriesObserverFlag K inv.1 = true ∧ ∀ p ∈ pre, carriesObserverFlag K p.1 = false)) ∧
      ((entityHandler K (invokeAll K (ServerState.init isListOfObservers) pre)
          inv.1 inv.2).threadsCreated = 0 ↔
        ¬ (carriesObserverFlag K inv.1 = true ∧
            ∀ p ∈ pre, carriesObserverFlag K p.1 = false)) := by
  refine ⟨threadsCreatedBy_sum_le_one K invs _, ?_⟩
  intro pre post inv _
  have hpre := invokeAll_startedThread_eq_zero K pre (ServerState.init isListOfObservers)
  have hinit : (ServerState.init isListOfObservers).startedThread = 0 := rfl
  rw [entityHandler_threadsCreated]
  by_cases hc : carriesObserverFlag K inv.1 = true
  · by_cases hp : ∀ p ∈ pre, carriesObserverFlag K p.1 = false
    · rw [if_pos ⟨hc, hpre.mpr ⟨hinit, hp⟩⟩]
      exact ⟨⟨fun _ => ⟨hc, hp⟩, fun _ => rfl⟩,
        ⟨fun h => absurd h (by decide), fun h => absurd ⟨hc, hp⟩ h⟩⟩
    · rw [if_neg (fun hh => hp (hpre.mp hh.2).2)]
      exact ⟨⟨fun h => absurd h (by decide), fun h => absurd h.2 hp⟩,
        ⟨fun _ h => hp h.2, fun _ => rfl⟩⟩
  · rw [if_neg (fun hh => hc hh.1)]
    exact ⟨⟨fun h => absurd h (by decide), fun h => absurd h.1 hc⟩,
      ⟨fun _ h => hc h.1, fun _ => rfl⟩⟩

/-- C11, amended, on the sequence GET, register 1, register 2: at most one thread
is created, and it is created by the registration of 1, the first invocation that
carries the observer flag. -/
theorem entityHandler_single_start_witness :
    (threadsCreatedBy sampleApi (ServerState.init 0)
        [(some (plainRequest sampleApi "GET" OCRepresentation.empty), none),
         (some (observeRequest sampleApi ObserveAction.ObserveRegister 1), none),
         (some (observeRequest sampleApi ObserveAction.ObserveRegister 2), none)]).sum ≤ 1 ∧
    (entityHandler sampleApi
        (invokeAll sampleApi (ServerState.init 0)
          [(some (plainRequest sampleApi "GET" OCRepresentation.empty), none)])
        (some (observeRequest sampleApi ObserveAction.ObserveRegister 1))
        none).threadsCreated = 1 :=
  have h := entityHandler_single_start sampleApi 0
    [(some (plainRequest sampleApi "GET" OCRepresentation.empty), none),
     (some (observeRequest sampleApi ObserveAction.ObserveRegister 1), none),
     (some (observeRequest sampleApi ObserveAction.ObserveRegister 2), none)]
  ⟨h.1,
    (h.2 [(some (plainRequest sampleApi "GET" OCRepresentation.empty), none)]
      [(some (observeRequest sampleApi ObserveAction.ObserveRegister 2), none)]
      (some (observeRequest sampleApi ObserveAction.ObserveRegister 1), none) rfl).1.mpr
      ⟨by decide, by decide⟩⟩

theorem OCRepresentation.findEntry_setEntry_self (l : List (String × AttributeValue))
    (key : String) (val : AttributeValue) :
    OCRepresentation.findEntry (OCRepresentation.setEntry l key val) key = some val := by
  induction l with
  | nil => simp [OCRepresentation.setEntry, OCRepresentation.findEntry]
  | cons p rest ih =>
    obtain ⟨k, v⟩ := p
    by_cases h : k = key
    · simp [OCRepresentation.setEntry, OCRepresentation.findEntry, h]
    · simp [OCRepresentation.setEntry, OCRepresentation.findEntry, h, ih]

theorem OCRepresentation.findEntry_setEntry_ne (l : List (String × AttributeValue))
    (key other : String) (val : AttributeValue) (hne : key ≠ other) :
    OCRepresentation.findEntry (OCRepresentation.setEntry l key val) other =
      OCRepresentation.findEntry l other := by
  induction l with
  | nil => simp [OCRepresentation.setEntry, OCRepresentation.findEntry, hne]
  | cons p rest ih =>
    obtain ⟨k, v⟩ := p
    by_cases h : k = key
    · subst h
      simp [OCRepresentation.setEntry, OCRepresentation.findEntry, hne]
    · by_cases h' : k = other
      · subst h'
        simp [OCRepresentation.setEntry, OCRepresentation.findEntry, h]
      · simp [OCRepresentation.setEntry, OCRepresentation.findEntry, h, h', ih]

/-- The representation `get()` returns carries the current state and power. -/
theorem LightResource.get_values (l : LightResource) :
    l.get.1.getValueBool "state" = some l.m_state ∧
    l.get.1.getValueInt "power" = some l.m_power := by
  constructor
  · simp only [LightResource.get, OCRepresentation.getValueBool, OCRepresentation.setValue]
    rw [OCRepresentation.findEntry_setEntry_ne _ "power" "state" _ (by decide),
      OCRepresentation.findEntry_setEntry_self]
  · simp only [LightResource.get, OCRepresentation.getValueInt, OCRepresentation.setValue]
    rw [OCRepresentation.findEntry_setEntry_self]

/-- The request block on a GET with a response object. -/
theorem entityHandler.requestBlock_get (K : OCApi) (s : ServerState)
    (request : OCResourceRequest) (response : OCResourceResponse)
    (hflag : request.requestHandlerFlag &&& K.RequestFlag ≠ 0)
    (htype : request.requestType = "GET") :
    entityHandler.requestBlock K s request (some response) =
      ({ s with myLight := s.myLight.get.2 },
        some ((response.setErrorCode 200).setResourceRepresentation s.myLight.get.1)) := by
  unfold entityHandler.requestBlock
  rw [if_pos hflag, if_pos htype]

/-- The request block on a PUT. -/
theorem entityHandler.requestBlock_put (K : OCApi) (s : ServerState)
    (request : OCResourceRequest) (response : Option OCResourceResponse)
    (hflag : request.requestHandlerFlag &&& K.RequestFlag ≠ 0)
    (htype : request.requestType = "PUT") :
    entityHandler.requestBlock K s request response =
      match response with
      | some response =>
          ({ s with myLight := (s.myLight.put request.resourceRepresentation).get.2 },
            some ((response.setErrorCode 200).setResourceRepresentation
              (s.myLight.put request.resourceRepresentation).get.1))
      | none => ({ s with myLight := s.myLight.put request.resourceRepresentation }, none) := by
  unfold entityHandler.requestBlock
  have hg : ¬ request.requestType = "GET" := by rw [htype]; decide
  rw [if_pos hflag, if_neg hg, if_pos htype]

/-- The request block on a POST or a DELETE does nothing. -/
theorem entityHandler.requestBlock_post_delete (K : OCApi) (s : ServerState)
    (request : OCResourceRequest) (response : Option OCResourceResponse)
    (htype : request.requestType = "POST" ∨ request.requestType = "DELETE") :
    entityHandler.requestBlock K s request response = (s, response) := by
  unfold entityHandler.requestBlock
  have hg : ¬ request.requestType = "GET" := by
    rcases htype with h | h <;> rw [h] <;> decide
  have hp : ¬ request.requestType = "PUT" := by
    rcases htype with h | h <;> rw [h] <;> decide
  rw [if_neg hg, if_neg hp]
  split_ifs <;> rfl

/-- The response `entityHandler` leaves is the one its request block leaves. -/
theorem entityHandler_response (K : OCApi) (s : ServerState) (request : OCResourceRequest)
    (response : Option OCResourceResponse) :
    (entityHandler K s (some request) response).response =
      (entityHandler.requestBlock K s request response).2 := by
  rw [entityHandler_eq_blocks]

/-- The light `entityHandler` leaves is the one its request block leaves, up to the
observer list. -/
theorem entityHandler_myLight (K : OCApi) (s : ServerState) (request : OCResourceRequest)
    (response : Option OCResourceResponse) :
    (entityHandler K s (some request) response).state.myLight =
      { (entityHandler.requestBlock K s request response).1.myLight with
        m_interestedObservers :=
          (entityHandler K s (some request) response).state.myLight.m_interestedObservers } := by
  rw [entityHandler_eq_blocks]
  simp only []
  by_cases h : request.requestHandlerFlag &&& K.ObserverFlag ≠ 0
  · rw [entityHandler.observerBlock_of_flag K _ request h]
  · rw [entityHandler.observerBlock_of_no_flag K _ request h]

/-- Without the observer flag, the globals `entityHandler` leaves are the ones its
request block leaves. -/
theorem entityHandler_state_of_no_observer_flag (K : OCApi) (s : ServerState)
    (request : OCResourceRequest) (response : Option OCResourceResponse)
    (h : request.requestHandlerFlag &&& K.ObserverFlag = 0) :
    (entityHandler K s (some request) response).state =
      (entityHandler.requestBlock K s request response).1 := by
  rw [entityHandler_eq_blocks]
  simp only []
  rw [entityHandler.observerBlock_of_no_flag K _ request (by simpa using h)]

/-- C12: a GET handled by `entityHandler` on the freshly constructed light answers
with code 200 and the representation holding exactly `state = false`, `power = 0`
and `name = "John's light"` under the URI `/a/light`; and a freshly constructed
binary switch holds exactly the bundle `{value: false}`, so `getState()` returns
`false`. -/
theorem get_after_construction (σ : Type) (K : OCApi) (isListOfObservers : Int)
    (request : OCResourceRequest) (response : OCResourceResponse)
    (hflag : request.requestHandlerFlag &&& K.RequestFlag ≠ 0)
    (htype : request.requestType = "GET") :
    (entityHandler K (ServerState.init isListOfObservers) (some request)
        (some response)).response =
      some { m_errorCode := 200
             m_representation :=
               some { m_uri := "/a/light"
                      m_values := [("state", AttributeValue.bool false),
                                   ("power", AttributeValue.int 0),
                                   ("name", AttributeValue.string "John's light")] }
             m_interface := response.m_interface } ∧
    (OIC.Service.SH.BinarySwitchResource.new :
        OIC.Service.SH.BinarySwitchResource σ).getPropertyBundle =
      [("value", OIC.Service.SH.PropertyValue.bool false)] ∧
    (OIC.Service.SH.BinarySwitchResource.new :
        OIC.Service.SH.BinarySwitchResource σ).getState = false := by
  refine ⟨?_, rfl, rfl⟩
  rw [entityHandler_response, entityHandler.requestBlock_get K _ request response hflag htype]
  simp only [OCResourceResponse.setErrorCode, OCResourceResponse.setResourceRepresentation]
  have hrep : (ServerState.init isListOfObservers).myLight.get.1 =
      { m_uri := "/a/light"
        m_values := [("state", AttributeValue.bool false), ("power", AttributeValue.int 0),
          ("name", AttributeValue.string "John's light")] } := rfl
  rw [hrep]

/-- C12 on a plain GET request with a default-constructed response object. -/
theorem get_after_construction_witness :
    (entityHandler sampleApi (ServerState.init 0)
        (some (plainRequest sampleApi "GET" OCRepresentation.empty))
        (some OCResourceResponse.new)).response =
      some { m_errorCode := 200
             m_representation :=
               some { m_uri := "/a/light"
                      m_values := [("state", AttributeValue.bool false),
                                   ("power", AttributeValue.int 0),
                                   ("name", AttributeValue.string "John's light")] }
             m_interface := none } :=
  (get_after_construction Nat sampleApi 0 (plainRequest sampleApi "GET" OCRepresentation.empty)
    OCResourceResponse.new (by decide) rfl).1

/-- C13: for every state of the light and every GET request with the request flag
set and a response object, `entityHandler` sets the response code to 200 and a
representation whose `"state"` and `"power"` equal the current `m_state` and
`m_power`, and leaves `m_state`, `m_power`, `m_name` and, when the observer flag is
not set, the observer list and `gObservation` unchanged. -/
theorem get_snapshot_read_only (K : OCApi) (s : ServerState) (request : OCResourceRequest)
    (response : OCResourceResponse)
    (hflag : request.requestHandlerFlag &&& K.RequestFlag ≠ 0)
    (htype : request.requestType = "GET") :
    (∃ rep,
      (entityHandler K s (some request) (some response)).response =
        some { m_errorCode := 200, m_representation := some rep,
               m_interface := response.m_interface } ∧
      rep.getValueBool "state" = some s.myLight.m_state ∧
      rep.getValueInt "power" = some s.myLight.m_power) ∧
    (entityHandler K s (some request) (some response)).state.myLight.m_state =
      s.myLight.m_state ∧
    (entityHandler K s (some request) (some response)).state.myLight.m_power =
      s.myLight.m_power ∧
    (entityHandler K s (some request) (some response)).state.myLight.m_name =
      s.myLight.m_name ∧
    (request.requestHandlerFlag &&& K.ObserverFlag = 0 →
      (entityHandler K s (some request) (some response)).state.myLight.m_interestedObservers =
        s.myLight.m_interestedObservers ∧
      (entityHandler K s (some request) (some response)).state.gObservation =
        s.gObservation) := by
  have hb := entityHandler.requestBlock_get K s request response hflag htype
  have hl := entityHandler_myLight K s request (some response)
  rw [hb] at hl
  refine ⟨⟨s.myLight.get.1, ?_, LightResource.get_values s.myLight⟩, ?_, ?_, ?_, ?_⟩
  · rw [entityHandler_response, hb]
    rfl
  · rw [hl]; rfl
  · rw [hl]; rfl
  · rw [hl]; rfl
  · intro hobs
    rw [entityHandler_state_of_no_observer_flag K s request (some response) hobs, hb]
    exact ⟨rfl, rfl⟩

/-- C13 on a light that is on at power 30 whose representation is still the
constructor's: a GET answers `state = true`, `power = 30` and leaves both fields. -/
theorem get_snapshot_read_only_witness :
    (entityHandler sampleApi
        { ServerState.init 0 with
          myLight := { LightResource.new with m_state := true, m_power := 30 } }
        (some (plainRequest sampleApi "GET" OCRepresentation.empty))
        (some OCResourceResponse.new)).response =
      some { m_errorCode := 200
             m_representation :=
               some { m_uri := "/a/light"
                      m_values := [("state", AttributeValue.bool true),
                                   ("power", AttributeValue.int 30),
                                   ("name", AttributeValue.string "John's light")] }
             m_interface := none } ∧
    (entityHandler sampleApi
        { ServerState.init 0 with
          myLight := { LightResource.new with m_state := true, m_power := 30 } }
        (some (plainRequest sampleApi "GET" OCRepresentation.empty))
        (some OCResourceResponse.new)).state.myLight.m_state = true ∧
    (entityHandler sampleApi
        { ServerState.init 0 with
          myLight := { LightResource.new with m_state := true, m_power := 30 } }
        (some (plainRequest sampleApi "GET" OCRepresentation.empty))
        (some OCResourceResponse.new)).state.myLight.m_power = 30 :=
  have h := get_snapshot_read_only sampleApi
    { ServerState.init 0 with
      myLight := { LightResource.new with m_state := true, m_power := 30 } }
    (plainRequest sampleApi "GET" OCRepresentation.empty) OCResourceResponse.new
    (by decide) rfl
  ⟨by decide, h.2.1, h.2.2.1⟩

/-- The two fields `put(rep)` writes, in terms of what `rep` yields. -/
theorem LightResource.put_fields (l : LightResource) (rep : OCRepresentation) :
    (l.put rep).m_state = (rep.getValueBool "state").getD l.m_state ∧
    (l.put rep).m_power = (rep.getValueInt "power").getD l.m_power := by
  unfold LightResource.put
  cases rep.getValueBool "state" <;> cases rep.getValueInt "power" <;> exact ⟨rfl, rfl⟩

/-- The light after a PUT, whether or not a response object is passed. -/
theorem entityHandler_put_fields (K : OCApi) (s : ServerState) (request : OCResourceRequest)
    (response : Option OCResourceResponse)
    (hflag : request.requestHandlerFlag &&& K.RequestFlag ≠ 0)
    (htype : request.requestType = "PUT") :
    (entityHandler K s (some request) response).state.myLight.m_state =
      (request.resourceRepresentation.getValueBool "state").getD s.myLight.m_state ∧
    (entityHandler K s (some request) response).state.myLight.m_power =
      (request.resourceRepresentation.getValueInt "power").getD s.myLight.m_power := by
  have hl := entityHandler_myLight K s request response
  have hb := entityHandler.requestBlock_put K s request response hflag htype
  have hf := LightResource.put_fields s.myLight request.resourceRepresentation
  rw [hb] at hl
  rw [hl]
  cases response with
  | none => exact hf
  | some r => exact hf

/-- C14: on a PUT carrying the request flag, for every incoming representation,
`"state"` and `"power"` are handled independently: a key that is present (with a
value of the field's type) sets its field to the supplied value, a key that is
absent leaves its field unchanged, whatever happens to the other key; and with a
response object the response code is 200 and the response representation carries
the values of the two fields after the update. -/
theorem put_lenient (K : OCApi) (s : ServerState) (request : OCResourceRequest)
    (anyResponse : Option OCResourceResponse) (response : OCResourceResponse)
    (hflag : request.requestHandlerFlag &&& K.RequestFlag ≠ 0)
    (htype : request.requestType = "PUT") :
    (∀ b, OCRepresentation.findEntry request.resourceRepresentation.m_values "state" =
        some (AttributeValue.bool b) →
      (entityHandler K s (some request) anyResponse).state.myLight.m_state = b) ∧
    (OCRepresentation.findEntry request.resourceRepresentation.m_values "state" = none →
      (entityHandler K s (some request) anyResponse).state.myLight.m_state =
        s.myLight.m_state) ∧
    (∀ p, OCRepresentation.findEntry request.resourceRepresentation.m_values "power" =
        some (AttributeValue.int p) →
      (entityHandler K s (some request) anyResponse).state.myLight.m_power = p) ∧
    (OCRepresentation.findEntry request.resourceRepresentation.m_values "power" = none →
      (entityHandler K s (some request) anyResponse).state.myLight.m_power =
        s.myLight.m_power) ∧
    (∃ out,
      (entityHandler K s (some request) (some response)).response =
        some { m_errorCode := 200, m_representation := some out,
               m_interface := response.m_interface } ∧
      out.getValueBool "state" =
        some (entityHandler K s (some request) (some response)).state.myLight.m_state ∧
      out.getValueInt "power" =
        some (entityHandler K s (some request) (some response)).state.myLight.m_power) := by
  have hf := entityHandler_put_fields K s request anyResponse hflag htype
  refine ⟨?_, ?_, ?_, ?_, ?_⟩
  · intro b hb
    rw [hf.1]
    simp [OCRepresentation.getValueBool, hb]
  · intro hb
    rw [hf.1]
    simp [OCRepresentation.getValueBool, hb]
  · intro p hp
    rw [hf.2]
    simp [OCRepresentation.getValueInt, hp]
  · intro hp
    rw [hf.2]
    simp [OCRepresentation.getValueInt, hp]
  · have hl := entityHandler_myLight K s request (some response)
    have hb := entityHandler.requestBlock_put K s request (some response) hflag htype
    rw [hb] at hl
    refine ⟨(s.myLight.put request.resourceRepresentation).get.1, ?_, ?_, ?_⟩
    · rw [entityHandler_response, hb]
      rfl
    · rw [hl]
      exact (LightResource.get_values _).1
    · rw [hl]
      exact (LightResource.get_values _).2

/-- C14 on the initial light (`state = false`, `power = 0`): a PUT of `{power: 7}`
sets the power and keeps the state, a PUT of `{state: true}` sets the state and
keeps the power, and the answer to the first carries code 200, `state = false` and
`power = 7`. -/
theorem put_lenient_witness :
    (entityHandler sampleApi (ServerState.init 0)
        (some (plainRequest sampleApi "PUT"
          { m_uri := "", m_values := [("power", AttributeValue.int 7)] }))
        none).state.myLight.m_power = 7 ∧
    (entityHandler sampleApi (ServerState.init 0)
        (some (plainRequest sampleApi "PUT"
          { m_uri := "", m_values := [("power", AttributeValue.int 7)] }))
        none).state.myLight.m_state = false ∧
    (entityHandler sampleApi (ServerState.init 0)
        (some (plainRequest sampleApi "PUT"
          { m_uri := "", m_values := [("state", AttributeValue.bool true)] }))
        none).state.myLight.m_state = true ∧
    (entityHandler sampleApi (ServerState.init 0)
        (some (plainRequest sampleApi "PUT"
          { m_uri := "", m_values := [("power", AttributeValue.int 7)] }))
        (some OCResourceResponse.new)).response =
      some { m_errorCode := 200
             m_representation :=
               some { m_uri := "/a/light"
                      m_values := [("state", AttributeValue.bool false),
                                   ("power", AttributeValue.int 7),
                                   ("name", AttributeValue.string "John's light")] }
             m_interface := none } :=
  ⟨(put_lenient sampleApi (ServerState.init 0)
      (plainRequest sampleApi "PUT"
        { m_uri := "", m_values := [("power", AttributeValue.int 7)] })
      none OCResourceResponse.new (by decide) rfl).2.2.1 7 rfl,
    (put_lenient sampleApi (ServerState.init 0)
      (plainRequest sampleApi "PUT"
        { m_uri := "", m_values := [("power", AttributeValue.int 7)] })
      none OCResourceResponse.new (by decide) rfl).2.1 rfl,
    (put_lenient sampleApi (ServerState.init 0)
      (plainRequest sampleApi "PUT"
        { m_uri := "", m_values := [("state", AttributeValue.bool true)] })
      none OCResourceResponse.new (by decide) rfl).1 true rfl,
    by decide⟩

/-- C16 as stated fails: a POST and a DELETE leave the response object exactly as it
was passed in, so a response that came in with code 200 still has code 200 and no
status is given; and a POST that also carries the observer flag with a registration
changes the observer list. -/
theorem entityHandler_post_delete_no_status :
    (entityHandler sampleApi (ServerState.init 0)
        (some (plainRequest sampleApi "POST" OCRepresentation.empty))
        (some { m_errorCode := 200, m_representation := none, m_interface := none })
      ).response =
      some { m_errorCode := 200, m_representation := none, m_interface := none } ∧
    (entityHandler sampleApi (ServerState.init 0)
        (some (plainRequest sampleApi "DELETE" OCRepresentation.empty))
        (some OCResourceResponse.new)).response = some OCResourceResponse.new ∧
    (entityHandler sampleApi (ServerState.init 0)
        (some { requestType := "POST"
                requestHandlerFlag := sampleApi.RequestFlag ||| sampleApi.ObserverFlag
                resourceRepresentation := OCRepresentation.empty
                observationInfo := { action := ObserveAction.ObserveRegister, obsId := 9 } })
        (some OCResourceResponse.new)).state.myLight.m_interestedObservers = [9] := by
  decide

/-- C16, amended: for every request of type POST or DELETE, `entityHandler` writes
nothing to the response, which is left exactly as it was passed in (no status is
set), and leaves `m_state`, `m_power`, `m_name` and the representation of the light
unchanged; when the request does not carry the observer flag, all globals, the
observer list included, are unchanged and no thread is created. -/
theorem entityHandler_post_delete (K : OCApi) (s : ServerState) (request : OCResourceRequest)
    (response : Option OCResourceResponse)
    (htype : request.requestType = "POST" ∨ request.requestType = "DELETE") :
    (entityHandler K s (some request) response).response = response ∧
    (entityHandler K s (some request) response).state.myLight.m_state = s.myLight.m_state ∧
    (entityHandler K s (some request) response).state.myLight.m_power = s.myLight.m_power ∧
    (entityHandler K s (some request) response).state.myLight.m_name = s.myLight.m_name ∧
    (entityHandler K s (some request) response).state.myLight.m_lightRep =
      s.myLight.m_lightRep ∧
    (request.requestHandlerFlag &&& K.ObserverFlag = 0 →
      (entityHandler K s (some request) response).state = s ∧
      (entityHandler K s (some request) response).threadsCreated = 0) := by
  have hb := entityHandler.requestBlock_post_delete K s request response htype
  have hl := entityHandler_myLight K s request response
  rw [hb] at hl
  refine ⟨?_, ?_, ?_, ?_, ?_, ?_⟩
  · rw [entityHandler_response, hb]
  · rw [hl]
  · rw [hl]
  · rw [hl]
  · rw [hl]
  · intro hobs
    constructor
    · rw [entityHandler_state_of_no_observer_flag K s request response hobs, hb]
    · rw [entityHandler_threadsCreated]
      have hc : ¬ (carriesObserverFlag K (some request) = true ∧ s.startedThread = 0) := by
        intro hh
        have := hh.1
        simp [carriesObserverFlag, hobs] at this
      rw [if_neg hc]

/-- C16, amended, on a DELETE with a response that came in with code 200 while the
light is on at power 30: the response still has code 200 and the light is as it
was. -/
theorem entityHandler_post_delete_witness :
    (entityHandler sampleApi
        { ServerState.init 0 with
          myLight := { LightResource.new with m_state := true, m_power := 30 } }
        (some (plainRequest sampleApi "DELETE" OCRepresentation.empty))
        (some { m_errorCode := 200, m_representation := none, m_interface := none })
      ).response =
      some { m_errorCode := 200, m_representation := none, m_interface := none } ∧
    (entityHandler sampleApi
        { ServerState.init 0 with
          myLight := { LightResource.new with m_state := true, m_power := 30 } }
        (some (plainRequest sampleApi "DELETE" OCRepresentation.empty))
        (some { m_errorCode := 200, m_representation := none, m_interface := none })
      ).state.myLight.m_state = true :=
  have h := entityHandler_post_delete sampleApi
    { ServerState.init 0 with
      myLight := { LightResource.new with m_state := true, m_power := 30 } }
    (plainRequest sampleApi "DELETE" OCRepresentation.empty)
    (some { m_errorCode := 200, m_representation := none, m_interface := none })
    (Or.inr rfl)
  ⟨h.1, h.2.1⟩

end OC

/-! ## Further properties of the binary switch -/

namespace OIC.Service.SH

variable {σ : Type}

theorem PropertyBundle.find_setValue_ne (bundle : PropertyBundle) (key other : String)
    (val : PropertyValue) (hne : key ≠ other) :
    (bundle.setValue key val).find other = bundle.find other := by
  induction bundle with
  | nil => simp [PropertyBundle.setValue, PropertyBundle.find, hne]
  | cons p rest ih =>
    obtain ⟨k, v⟩ := p
    by_cases h : k = key
    · subst h
      simp [PropertyBundle.setValue, PropertyBundle.find, hne]
    · by_cases h' : k = other
      · subst h'
        simp [PropertyBundle.setValue, PropertyBundle.find, h]
      · simp [PropertyBundle.setValue, PropertyBundle.find, h, h', ih]

theorem PropertyBundle.contains_setValue_ne (bundle : PropertyBundle) (key other : String)
    (val : PropertyValue) (hne : key ≠ other) :
    (bundle.setValue key val).contains other = bundle.contains other := by
  induction bundle with
  | nil => simp [PropertyBundle.setValue, PropertyBundle.contains, hne]
  | cons p rest ih =>
    obtain ⟨k, v⟩ := p
    by_cases h : k = key
    · subst h
      simp [PropertyBundle.setValue, PropertyBundle.contains, hne]
    · by_cases h' : k = other
      · subst h'
        simp [PropertyBundle.setValue, PropertyBundle.contains, h]
      · simp [PropertyBundle.setValue, PropertyBundle.contains, h, h', ih]

/-- C15: with a delegate set, for every incoming bundle that does not contain
`"value"`, `onSet` returns `FAIL`, runs neither callback (the application's state
comes back as it went in, whatever the callbacks are) and leaves the resource, its
stored bundle included, unchanged. -/
theorem BinarySwitchResource.onSet_without_value (r : BinarySwitchResource σ)
    (delegate : BinarySwitchResourceDelegate σ) (app : σ) (bundle : PropertyBundle)
    (hd : r.m_userDelegate = some delegate)
    (hc : bundle.contains KEY_VALUE = false) :
    r.onSet app bundle = (ResultCode.FAIL, r, app) ∧
    (r.onSet app bundle).2.1.getPropertyBundle = r.getPropertyBundle := by
  have h : r.onSet app bundle = (ResultCode.FAIL, r, app) := by
    unfold BinarySwitchResource.onSet
    simp [hd, hc]
  rw [h]
  exact ⟨rfl, rfl⟩

/-- C15 on a fresh switch whose delegate counts its calls: a PUT of `{power: 5}`
returns `FAIL`, the call counter is still 0 and the stored bundle is still
`{value: false}`. -/
theorem BinarySwitchResource.onSet_without_value_witness :
    ((BinarySwitchResource.new.setBinarySwitchResourceDelegate (some acceptAll)).onSet 0
        [("power", PropertyValue.int 5)]).1 = ResultCode.FAIL ∧
    ((BinarySwitchResource.new.setBinarySwitchResourceDelegate (some acceptAll)).onSet 0
        [("power", PropertyValue.int 5)]).2.2 = 0 ∧
    ((BinarySwitchResource.new.setBinarySwitchResourceDelegate (some acceptAll)).onSet 0
        [("power", PropertyValue.int 5)]).2.1.getPropertyBundle =
      [(KEY_VALUE, PropertyValue.bool false)] :=
  have h := BinarySwitchResource.onSet_without_value
    (BinarySwitchResource.new.setBinarySwitchResourceDelegate (some acceptAll)) acceptAll 0
    [("power", PropertyValue.int 5)] rfl (by decide)
  ⟨congrArg Prod.fst h.1, congrArg (fun x => x.2.2) h.1, h.2⟩

/-- C17: while no delegate is set, as after construction, for every incoming bundle,
with or without `"value"`, `onSet` returns `FAIL` and leaves the resource, its
stored bundle included, unchanged. -/
theorem BinarySwitchResource.onSet_no_delegate (r : BinarySwitchResource σ) (app : σ)
    (bundle : PropertyBundle) (hd : r.m_userDelegate = none) :
    (BinarySwitchResource.new : BinarySwitchResource σ).m_userDelegate = none ∧
    r.onSet app bundle = (ResultCode.FAIL, r, app) ∧
    (r.onSet app bundle).2.1.getPropertyBundle = r.getPropertyBundle := by
  have h : r.onSet app bundle = (ResultCode.FAIL, r, app) := by
    unfold BinarySwitchResource.onSet
    simp [hd]
  rw [h]
  exact ⟨rfl, rfl, rfl⟩

/-- C17 on a freshly constructed switch: a PUT of `{value: true}` returns `FAIL` and
the stored bundle is still `{value: false}`. -/
theorem BinarySwitchResource.onSet_no_delegate_witness :
    ((BinarySwitchResource.new : BinarySwitchResource Nat).onSet 0
        [(KEY_VALUE, PropertyValue.bool true)]).1 = ResultCode.FAIL ∧
    ((BinarySwitchResource.new : BinarySwitchResource Nat).onSet 0
        [(KEY_VALUE, PropertyValue.bool true)]).2.1.getPropertyBundle =
      [(KEY_VALUE, PropertyValue.bool false)] :=
  have h := BinarySwitchResource.onSet_no_delegate
    (BinarySwitchResource.new : BinarySwitchResource Nat) 0
    [(KEY_VALUE, PropertyValue.bool true)] rfl
  ⟨congrArg Prod.fst h.2.1, h.2.2⟩

/-- C18: when a delegate is set, the incoming bundle contains `"value"` and the
callback serving the request returns `SUCCESS`, the stored bundle after the call is
the stored bundle before the call with `"value"` set to the requested value: every
other key has the entry it had, a key absent from the store stays absent even when
the incoming bundle has it, and the rest of the resource is unchanged. -/
theorem BinarySwitchResource.onSet_success_changes_only_value (r : BinarySwitchResource σ)
    (delegate : BinarySwitchResourceDelegate σ) (app : σ) (bundle : PropertyBundle)
    (hd : r.m_userDelegate = some delegate)
    (hc : bundle.contains KEY_VALUE = true)
    (hs : (invokedCallback delegate (requestedValue bundle) app).1 = ResultCode.SUCCESS) :
    (r.onSet app bundle).2.1.getPropertyBundle =
      r.getPropertyBundle.setValue KEY_VALUE (PropertyValue.bool (requestedValue bundle)) ∧
    (r.onSet app bundle).2.1.getPropertyBundle.find KEY_VALUE =
      some (PropertyValue.bool (requestedValue bundle)) ∧
    (∀ key, key ≠ KEY_VALUE →
      (r.onSet app bundle).2.1.getPropertyBundle.find key = r.getPropertyBundle.find key ∧
      (r.onSet app bundle).2.1.getPropertyBundle.contains key =
        r.getPropertyBundle.contains key) ∧
    (r.onSet app bundle).2.1.m_resourceUri = r.m_resourceUri ∧
    (r.onSet app bundle).2.1.m_resourceTypes = r.m_resourceTypes := by
  have he := BinarySwitchResource.onSet_eq r delegate app bundle hd hc
  simp only [hs] at he
  rw [he]
  refine ⟨rfl, ?_, ?_, rfl, rfl⟩
  · exact PropertyBundle.find_setValue_self _ _ _
  · intro key hkey
    exact ⟨PropertyBundle.find_setValue_ne _ _ _ _ (Ne.symm hkey),
      PropertyBundle.contains_setValue_ne _ _ _ _ (Ne.symm hkey)⟩

/-- C18 on a store `{value: false, mode: "eco"}` and an accepted PUT of
`{value: true, level: 3}`: the store becomes `{value: true, mode: "eco"}`. -/
theorem BinarySwitchResource.onSet_success_changes_only_value_witness :
    (((BinarySwitchResource.new.setPropertyBundle
          [(KEY_VALUE, PropertyValue.bool false), ("mode", PropertyValue.string "eco")]
        ).setBinarySwitchResourceDelegate (some acceptAll)).onSet 0
        [(KEY_VALUE, PropertyValue.bool true), ("level", PropertyValue.int 3)]
      ).2.1.getPropertyBundle =
      [(KEY_VALUE, PropertyValue.bool true), ("mode", PropertyValue.string "eco")] :=
  (BinarySwitchResource.onSet_success_changes_only_value
    ((BinarySwitchResource.new.setPropertyBundle
        [(KEY_VALUE, PropertyValue.bool false), ("mode", PropertyValue.string "eco")]
      ).setBinarySwitchResourceDelegate (some acceptAll)) acceptAll 0
    [(KEY_VALUE, PropertyValue.bool true), ("level", PropertyValue.int 3)]
    rfl (by decide) (by decide)).1

/-- C19: for every boolean `b` and every prior state of the switch, with or without
a delegate, `getState()` after `setState(b)` returns `b`, and `setState(b)` replaces
the stored bundle by the bundle holding exactly `"value" = b`, leaving the delegate
as it was. -/
theorem BinarySwitchResource.getState_setState (r : BinarySwitchResource σ) (b : Bool) :
    (r.setState b).getState = b ∧
    (r.setState b).getPropertyBundle = [(KEY_VALUE, PropertyValue.bool b)] ∧
    (r.setState b).m_userDelegate = r.m_userDelegate := by
  refine ⟨?_, rfl, rfl⟩
  exact BinarySwitchResource.getState_setPropertyBundle_setValue r [] b

end OIC.Service.SH
